import Mathlib

/-!
Verification development for the `invoices` repository.

The Python sources under `src/` are shallowly embedded as executable Lean
definitions: JSON/dict-shaped configuration values become the `Json` type
below, Python floats become `ℚ` (with `round(x, 2)` modelled as exact
round-half-even on rationals), fallible code returns `Option`/`Except`,
and the stateful web endpoint becomes an explicit state-passing step
function over the list of persisted rows.
-/

/-! ## JSON-shaped Python values

Python dict/list/str/number values, as used for the invoice configuration.
`JFields` is an association list preserving insertion order, mirroring a
Python dict with string keys.  Python booleans are kept separate from
numbers but behave as 1/0 in arithmetic where the source relies on that.
-/

mutual
inductive Json where
  | null : Json
  | bool (b : Bool) : Json
  | num (q : ℚ) : Json
  | str (s : String) : Json
  | arr (xs : JList) : Json
  | obj (fields : JFields) : Json
  deriving DecidableEq

inductive JList where
  | nil : JList
  | cons (v : Json) (rest : JList) : JList
  deriving DecidableEq

inductive JFields where
  | nil : JFields
  | cons (k : String) (v : Json) (rest : JFields) : JFields
  deriving DecidableEq
end

/-- Lookup of a key in a dict, first binding wins (Python dicts have unique
keys, so this is `d[k]` / `d.get(k)`). -/
def lookupField (fs : JFields) (k : String) : Option Json :=
  match fs with
  | .nil => none
  | .cons k' v rest => if k' = k then some v else lookupField rest k

/-- Model of `config.get(k)` (returns `None` when `config` is not a dict;
in Python that would raise `AttributeError`, callers below handle the
non-dict case explicitly where the distinction matters). -/
def jGet (c : Json) (k : String) : Option Json :=
  match c with
  | .obj fs => lookupField fs k
  | _ => none

/-- Python truthiness of a JSON-shaped value: `None`, `False`, `0`, `""`,
`[]`, `{}` are falsy, everything else truthy. -/
def jTruthy : Json → Bool
  | .null => false
  | .bool b => b
  | .num q => decide (q ≠ 0)
  | .str s => !s.isEmpty
  | .arr xs => decide (xs ≠ .nil)
  | .obj fs => decide (fs ≠ .nil)

/-- Length of a JSON list. -/
def jListLength : JList → Nat
  | .nil => 0
  | .cons _ rest => jListLength rest + 1

/-- Number of keys of a JSON dict. -/
def jFieldsLength : JFields → Nat
  | .nil => 0
  | .cons _ _ rest => jFieldsLength rest + 1

/-- Python `len` on a JSON value (lists and dicts; other values are never
measured by the embedded code paths). -/
def jLen : Json → Nat
  | .arr xs => jListLength xs
  | .obj fs => jFieldsLength fs
  | _ => 0

/-- Truthiness of `Option String` values coming from `dict.get`:
`None` and the empty string are falsy. -/
def pyTruthyStrOpt : Option String → Bool
  | none => false
  | some s => !s.isEmpty

/-! ## Python numeric helpers

`round(x, 2)` in Python rounds half to even; floats are modelled by exact
rationals. -/

/-- Round a rational to the nearest integer, ties to even (Python's
`round` on the exact value). -/
def roundHalfEven (x : ℚ) : ℤ :=
  let f : ℤ := ⌊x⌋
  let r : ℚ := x - f
  if r < 1/2 then f
  else if 1/2 < r then f + 1
  else if f % 2 = 0 then f else f + 1

/-- Python `round(x, 2)`. -/
def pyRound2 (q : ℚ) : ℚ := (roundHalfEven (q * 100) : ℚ) / 100

/-! ## invoice_calculator.py -/

/-- Result dict of `calculate_totals` (keys `net_amount`, `vat_amount`,
`total`). -/
structure Totals where
  net_amount : ℚ
  vat_amount : ℚ
  total : ℚ
  deriving DecidableEq

/-- Value of `item.get('amount', 0)` contributed to the sum by one line
item: a missing key counts as `0`, a bool counts as 1/0 (Python bools are
integers), and a non-numeric amount makes the Python `sum` raise
`TypeError`, modelled as `none`. -/
def getAmount (item : Json) : Option ℚ :=
  match item with
  | .obj fs =>
      match lookupField fs "amount" with
      | none => some 0
      | some (.num q) => some q
      | some (.bool b) => some (if b then 1 else 0)
      | some _ => none
  | _ => none

/-- Model of `sum(item.get('amount', 0) for item in line_items)`. -/
def sumAmounts : JList → Option ℚ
  | .nil => some 0
  | .cons item rest =>
      match getAmount item, sumAmounts rest with
      | some a, some s => some (a + s)
      | _, _ => none

/-- Model of `calculate_totals(line_items, vat_rate, apply_to_net)`
(src/lib/invoice_generator/invoice_calculator.py, lines 9-39).  `none`
models a raised exception (non-numeric amounts; note the Python source
would also raise `ZeroDivisionError` at `vat_rate = -100` in the
VAT-inclusive branch, where the rational model yields division by zero
with Lean's `x / 0 = 0` convention — theorems exercising that branch
carry a `1 + vat_rate / 100 ≠ 0` hypothesis). -/
def calculate_totals (line_items : JList) (vat_rate : ℚ) (apply_to_net : Bool) :
    Option Totals :=
  match sumAmounts line_items with
  | none => none
  | some net_amount =>
      if apply_to_net ∧ 0 < net_amount then
        let vat_amount := net_amount * (vat_rate / 100)
        some ⟨pyRound2 net_amount, pyRound2 vat_amount,
              pyRound2 (net_amount + vat_amount)⟩
      else if ¬ apply_to_net then
        let net_amount_excl_vat := net_amount / (1 + vat_rate / 100)
        let vat_amount := net_amount - net_amount_excl_vat
        some ⟨pyRound2 net_amount_excl_vat, pyRound2 vat_amount,
              pyRound2 (net_amount_excl_vat + vat_amount)⟩
      else
        some ⟨pyRound2 net_amount, pyRound2 0, pyRound2 (net_amount + 0)⟩

/-- A line item dict `{"amount": a}`. -/
def mkItem (a : ℚ) : Json := .obj (.cons "amount" (.num a) .nil)

/-- Build the `line_items` list from a list of amounts. -/
def itemsOf : List ℚ → JList
  | [] => .nil
  | a :: rest => .cons (mkItem a) (itemsOf rest)

/-! ### Python number formatting (`f"{amount:,.2f}"`) -/

/-- Decimal digit character. -/
def digitChar (n : Nat) : Char := Char.ofNat (48 + n)

/-- Decimal digits of a natural number, most significant first (fuel-based
so that it reduces in the kernel). -/
def digitsAux : Nat → Nat → List Char
  | 0, _ => []
  | fuel + 1, n =>
      if n < 10 then [digitChar n]
      else digitsAux fuel (n / 10) ++ [digitChar (n % 10)]

/-- Decimal digit string of a natural number. -/
def natDigits (n : Nat) : List Char := digitsAux (n + 1) n

/-- Exactly two decimal digits (zero padded), for day/month numbers and the
two digits after the decimal point (argument below 100). -/
def pad2 (n : Nat) : List Char := [digitChar (n / 10), digitChar (n % 10)]

/-- Insert a comma before every third digit counted from the right; the
input is the reversed digit list and `i` the number of digits already
emitted. -/
def groupRevAux : List Char → Nat → List Char
  | [], _ => []
  | c :: rest, i =>
      (if 0 < i ∧ i % 3 = 0 then [',', c] else [c]) ++ groupRevAux rest (i + 1)

/-- Thousands grouping with commas, as in Python's `,` format specifier. -/
def pyGroupDigits (ds : List Char) : List Char :=
  (groupRevAux ds.reverse 0).reverse

/-- Model of `f"{amount:,.2f}"`: round to two decimals (half to even),
comma-grouped integer part, dot, two fractional digits; a negative amount
gets a leading minus sign. -/
def pyFormatCommaFixed2 (q : ℚ) : String :=
  let cents := roundHalfEven (q * 100)
  let sign := if q < 0 then "-" else ""
  let m := cents.natAbs
  sign ++ String.mk (pyGroupDigits (natDigits (m / 100))) ++ "." ++
    String.mk (pad2 (m % 100))

/-- Model of Python `str.replace` for single characters. -/
def pyReplaceChar (s : String) (a b : Char) : String :=
  String.mk (s.toList.map (fun c => if c = a then b else c))

/-- Model of `format_amount` (invoice_calculator.py lines 57-69):
`f"{amount:,.2f}".replace(',', ' ')`.  The unused currency-code/symbol
parameters of the source ("for future use") are omitted. -/
def format_amount (amount : ℚ) : String :=
  pyReplaceChar (pyFormatCommaFixed2 amount) ',' ' '

/-- Model of `format_currency` (invoice_calculator.py lines 42-54):
`f"{code} {symbol} {amount:,.2f}".replace(',', ' ').replace('.', ',')`. -/
def format_currency (amount : ℚ) (currency_code : String) (currency_symbol : String) :
    String :=
  pyReplaceChar
    (pyReplaceChar (currency_code ++ " " ++ currency_symbol ++ " " ++
        pyFormatCommaFixed2 amount) ',' ' ')
    '.' ','

/-! ## template_config.py

The `template` section of the main configuration is embedded as typed
option-records: a field holds `none` exactly when the corresponding dict
key is absent, mirroring `dict.get(key, default)`. -/

/-- Order of sections in the invoice (`SectionOrder` enum). -/
inductive SectionOrder where
  | sender_first : SectionOrder
  | invoice_first : SectionOrder
  | bill_to_first : SectionOrder
  deriving DecidableEq

/-- Model of the `SectionOrder(value)` enum constructor; `none` models the
`ValueError` raised on an unrecognized value. -/
def SectionOrder.fromString : String → Option SectionOrder
  | "sender_first" => some .sender_first
  | "invoice_first" => some .invoice_first
  | "bill_to_first" => some .bill_to_first
  | _ => none

/-- Style configuration (`TemplateStyle` dataclass). -/
structure TemplateStyle where
  primary_color : String
  secondary_color : String
  accent_color : String
  title_font_size : ℚ
  header_font_size : ℚ
  normal_font_size : ℚ
  info_font_size : ℚ
  section_spacing : ℚ
  table_padding : ℚ
  top_margin : ℚ
  bottom_margin : ℚ
  left_margin : ℚ
  right_margin : ℚ
  deriving DecidableEq

/-- Field defaults of the `TemplateStyle` dataclass (template_config.py
lines 20-42): section spacing 1.2 cm and table padding 8 pt, per the
source comments "increased for better visual separation / readability". -/
def defaultTemplateStyle : TemplateStyle :=
  ⟨"#000000", "#E0E0E0", "#F0F0F0", 16, 10, 9, 10, 6/5, 8, 20, 20, 20, 20⟩

/-- Layout configuration (`TemplateLayout` dataclass). -/
structure TemplateLayout where
  show_sender : Bool
  show_invoice_details : Bool
  show_bill_to : Bool
  show_line_items : Bool
  section_order : SectionOrder
  custom_order : Option (List String)
  show_table_grid : Bool
  table_header_bg : Bool
  table_total_bg : Bool
  show_logo : Bool
  logo_path : Option String
  logo_position : String
  deriving DecidableEq

/-- Field defaults of the `TemplateLayout` dataclass (template_config.py
lines 45-68). -/
def defaultTemplateLayout : TemplateLayout :=
  ⟨true, true, true, true, .sender_first, none, true, true, true, false, none,
   "top_right"⟩

/-- Complete template configuration (`TemplateConfig` dataclass). -/
structure TemplateConfig where
  style : TemplateStyle
  layout : TemplateLayout
  preset : Option String
  deriving DecidableEq

/-- The all-defaults `TemplateConfig` (`TemplateConfig()`, i.e. `cls()`). -/
def defaultTemplateConfig : TemplateConfig :=
  ⟨defaultTemplateStyle, defaultTemplateLayout, none⟩

/-- The `style` sub-dict of the `template` section; `none` fields model
absent keys. -/
structure StyleData where
  primary_color : Option String
  secondary_color : Option String
  accent_color : Option String
  title_font_size : Option ℚ
  header_font_size : Option ℚ
  normal_font_size : Option ℚ
  info_font_size : Option ℚ
  section_spacing : Option ℚ
  table_padding : Option ℚ
  top_margin : Option ℚ
  bottom_margin : Option ℚ
  left_margin : Option ℚ
  right_margin : Option ℚ
  deriving DecidableEq

/-- The `layout` sub-dict of the `template` section. -/
structure LayoutData where
  show_sender : Option Bool
  show_invoice_details : Option Bool
  show_bill_to : Option Bool
  show_line_items : Option Bool
  section_order : Option String
  custom_order : Option (List String)
  show_table_grid : Option Bool
  table_header_bg : Option Bool
  table_total_bg : Option Bool
  show_logo : Option Bool
  logo_path : Option String
  logo_position : Option String
  deriving DecidableEq

/-- The `template` section of the main configuration; an absent `style` or
`layout` key (`data.get('style', {})`) is the all-`none` record. -/
structure TemplateData where
  preset : Option String
  style : StyleData
  layout : LayoutData
  deriving DecidableEq

/-- The empty `style` dict. -/
def emptyStyleData : StyleData :=
  ⟨none, none, none, none, none, none, none, none, none, none, none, none, none⟩

/-- The empty `layout` dict. -/
def emptyLayoutData : LayoutData :=
  ⟨none, none, none, none, none, none, none, none, none, none, none, none⟩

/-- The empty `template` dict. -/
def emptyTemplateData : TemplateData := ⟨none, emptyStyleData, emptyLayoutData⟩

/-- Model of `TemplateConfig.from_dict` (template_config.py lines 80-121).
Note the hard-coded fallback values `section_spacing = 1.0` and
`table_padding = 6` in the source, which differ from the dataclass
defaults (1.2 and 8).  `none` models the `ValueError` the
`SectionOrder(...)` constructor raises on an unrecognized value. -/
def TemplateConfig.from_dict (data : TemplateData) : Option TemplateConfig :=
  match SectionOrder.fromString (data.layout.section_order.getD "sender_first") with
  | none => none
  | some so =>
      some
        ⟨⟨data.style.primary_color.getD "#000000",
          data.style.secondary_color.getD "#E0E0E0",
          data.style.accent_color.getD "#F0F0F0",
          data.style.title_font_size.getD 16,
          data.style.header_font_size.getD 10,
          data.style.normal_font_size.getD 9,
          data.style.info_font_size.getD 10,
          data.style.section_spacing.getD 1,
          data.style.table_padding.getD 6,
          data.style.top_margin.getD 20,
          data.style.bottom_margin.getD 20,
          data.style.left_margin.getD 20,
          data.style.right_margin.getD 20⟩,
         ⟨data.layout.show_sender.getD true,
          data.layout.show_invoice_details.getD true,
          data.layout.show_bill_to.getD true,
          data.layout.show_line_items.getD true,
          so,
          data.layout.custom_order,
          data.layout.show_table_grid.getD true,
          data.layout.table_header_bg.getD true,
          data.layout.table_total_bg.getD true,
          data.layout.show_logo.getD false,
          data.layout.logo_path,
          data.layout.logo_position.getD "top_right"⟩,
         data.preset⟩

/-- Model of `TemplateConfig.get_preset` (template_config.py lines
123-147): the four named presets, any other name falling back to the
all-defaults configuration. -/
def TemplateConfig.get_preset (preset_name : String) : TemplateConfig :=
  match preset_name with
  | "default" => defaultTemplateConfig
  | "minimal" =>
      ⟨defaultTemplateStyle,
       { defaultTemplateLayout with show_sender := false, show_bill_to := false },
       none⟩
  | "compact" =>
      ⟨{ defaultTemplateStyle with section_spacing := 1/2, normal_font_size := 8 },
       defaultTemplateLayout, none⟩
  | "detailed" =>
      ⟨{ defaultTemplateStyle with section_spacing := 3/2, normal_font_size := 10 },
       defaultTemplateLayout, none⟩
  | _ => defaultTemplateConfig

/-- Model of `get_template_config(config)` (template_config.py lines
150-167); the argument is the `template` section of the main configuration
(`config.get('template', {})`), `none` when the section is absent. -/
def get_template_config (template : Option TemplateData) : Option TemplateConfig :=
  let template_data := template.getD emptyTemplateData
  if pyTruthyStrOpt template_data.preset then
    some (TemplateConfig.get_preset (template_data.preset.getD ""))
  else
    TemplateConfig.from_dict template_data

/-! ## invoice_config.py — validate_config -/

/-- The `ValueError`s raised by `validate_config`
(src/lib/invoice_generator/invoice_config.py, lines 71-111). -/
inductive VErr where
  | missingSection (name : String) : VErr
  | invoiceNumberRequired : VErr
  | lineItemsRequired : VErr
  | invalidDateMode : VErr
  | invalidDueDateRule : VErr
  deriving DecidableEq

/-- Two-level dict lookup, `config.get(k1, {}).get(k2)`. -/
def jGetIn (c : Json) (k1 k2 : String) : Option Json :=
  match jGet c k1 with
  | some v => jGet v k2
  | none => none

/-- The three recognized due-date rule names. -/
def validRules : List String :=
  ["today", "last_working_day_current_month", "last_working_day_next_month"]

/-- Model of `validate_config(config)` (invoice_config.py lines 71-111).
The source raises `ValueError` (modelled as `.error`) or returns `True`;
it never mutates its argument, which the pure embedding reflects.  The
checks run in source order: required sections by key membership, truthiness
of `invoice.invoice_number`, non-emptiness of `line_items`, the
`dates.mode` whitelist (defaulting to `"explicit"`), and — in calculated
mode — the due-date rule whitelist, skipped when the rule value is falsy
(`if rule and rule not in valid_rules`). -/
def validate_config (config : Json) : Except VErr Bool :=
  if jGet config "sender" = none then .error (.missingSection "sender")
  else if jGet config "invoice" = none then .error (.missingSection "invoice")
  else if jGet config "bill_to" = none then .error (.missingSection "bill_to")
  else if jGet config "line_items" = none then .error (.missingSection "line_items")
  else if ¬ jTruthy ((jGetIn config "invoice" "invoice_number").getD .null) then
    .error .invoiceNumberRequired
  else if ¬ jTruthy ((jGet config "line_items").getD .null) ∨
      jLen ((jGet config "line_items").getD .null) = 0 then
    .error .lineItemsRequired
  else
    let mode := ((jGetIn config "dates" "mode").getD (.str "explicit"))
    if mode ≠ .str "explicit" ∧ mode ≠ .str "calculated" then
      .error .invalidDateMode
    else if mode = .str "calculated" then
      match jGetIn config "dates" "due_date_config" with
      | some ddc =>
          match jGet ddc "rule" with
          | some rule =>
              if jTruthy rule ∧ ¬ (∃ r ∈ validRules, rule = .str r) then
                .error .invalidDueDateRule
              else .ok true
          | none => .ok true
      | none => .ok true
    else .ok true

/-! ## invoice_generator.py — InvoiceGenerator.update_config -/

/-- Model of `d[k] = v` on a Python dict: replace the value of an existing
key in place, or append a new key at the end (insertion order). -/
def setKey (fs : JFields) (k : String) (v : Json) : JFields :=
  match fs with
  | .nil => .cons k v .nil
  | .cons k' v' rest =>
      if k' = k then .cons k' v rest else .cons k' v' (setKey rest k v)

mutual
/-- Model of the nested `deep_update(base_dict, update_dict)` helper of
`InvoiceGenerator.update_config` (invoice_generator.py lines 113-118): a
dict value under a key that maps to a dict in the base is merged
recursively, every other update value overwrites. -/
def deep_update : Json → Json → Json
  | .obj b, .obj u => .obj (mergeEntries b u)
  | b, _ => b

/-- Fold of `deep_update`'s `for key, value in update_dict.items()` loop. -/
def mergeEntries : JFields → JFields → JFields
  | b, .nil => b
  | b, .cons k v rest =>
      let b' :=
        match v, lookupField b k with
        | .obj uo, some (.obj bo) => setKey b k (deep_update (.obj bo) (.obj uo))
        | _, _ => setKey b k v
      mergeEntries b' rest
end

/-- Model of `InvoiceGenerator.update_config` (invoice_generator.py lines
105-121): the held configuration is deep-merged with the updates first,
then the merged configuration is validated; the first component is the
configuration held by the generator after the call (also when validation
fails — the merge is not rolled back), the second the validation
outcome. -/
def InvoiceGenerator.update_config (config config_updates : Json) :
    Json × Except VErr Bool :=
  let merged := deep_update config config_updates
  (merged, validate_config merged)

/-! ## web/app.py — POST /api/generate

The endpoint is embedded as a step function on the list of persisted
invoice rows (the `invoices` table, in insertion order).  PDF rendering is
an external effect; a request carries a `render_ok` flag saying whether
`generate_invoice` would succeed on it. -/

/-- A row of the `invoices` table (web/models.py lines 6-20; the surrogate
id and the timestamps are not modelled — list position stands in for id
order). -/
structure WebRow where
  invoice_number : String
  config_json : Json
  sender_name : Option Json
  bill_to_name : Option Json
  subtotal : ℚ
  tax_amount : ℚ
  total : ℚ
  deriving DecidableEq

/-- The HTTP outcomes of `POST /api/generate` that the model
distinguishes: the 200 PDF response, a 400, and a 500. -/
inductive WebResponse where
  | pdfFile : WebResponse
  | badRequest : WebResponse
  | serverError : WebResponse
  deriving DecidableEq

/-- One request to `POST /api/generate`: either a body that is not valid
JSON, or a parsed configuration together with whether PDF rendering would
succeed on it. -/
inductive WebRequest where
  | malformed : WebRequest
  | valid (config : Json) (render_ok : Bool) : WebRequest

/-- Model of `sender.get('name') or sender.get('company_name')` (Python
`or`: the first operand if truthy, otherwise the second). -/
def extractName (sec : Json) : Option Json :=
  match jGet sec "name" with
  | some v => if jTruthy v then some v else jGet sec "company_name"
  | none => jGet sec "company_name"

/-- Model of `config.get(k, {})` followed by attribute access on the
result: absent gives the empty dict, a present non-dict raises
(`AttributeError`), modelled as `none`. -/
def secOrEmpty (config : Json) (k : String) : Option Json :=
  match jGet config k with
  | none => some (.obj .nil)
  | some (.obj fs) => some (.obj fs)
  | some _ => none

/-- Totals computation of the endpoint (web/app.py lines 80-86):
`line_items = config.get('line_items', [])`, `tax = config.get('tax', {})`,
`vat_rate = tax.get('vat_rate', 23.0)`, `apply_to_net =
tax.get('apply_to_net', True)`, then `calculate_totals`.  `none` models a
raised exception (non-list line items, non-dict tax, non-numeric rate),
which the endpoint's catch-all turns into a 500. -/
def webTotals (config : Json) : Option Totals :=
  match (match jGet config "line_items" with
         | none => some JList.nil
         | some (.arr xs) => some xs
         | some _ => none) with
  | none => none
  | some items =>
      match (match jGet config "tax" with
             | none => some JFields.nil
             | some (.obj fs) => some fs
             | some _ => none) with
      | none => none
      | some tax =>
          let apply_to_net := jTruthy ((lookupField tax "apply_to_net").getD (.bool true))
          match (lookupField tax "vat_rate").getD (.num 23) with
          | .num r => calculate_totals items r apply_to_net
          | .bool b => calculate_totals items (if b then 1 else 0) apply_to_net
          | _ => none

/-- Pre-persistence processing of one `/api/generate` request (web/app.py
lines 66-122): JSON parsing, the invoice-number presence check (400),
totals computation and name extraction (exceptions become 500), producing
the row to upsert.  A truthy non-string `invoice_number` is left to the
database driver's coercion and is outside the model (also mapped to the
500 outcome). -/
def processRequest (req : WebRequest) : Except WebResponse (WebRow × Bool) :=
  match req with
  | .malformed => .error .badRequest
  | .valid config render_ok =>
      match secOrEmpty config "invoice" with
      | none => .error .serverError
      | some inv =>
          match jGet inv "invoice_number" with
          | none => .error .badRequest
          | some numJ =>
              if jTruthy numJ = false then .error .badRequest
              else
                match numJ with
                | .str s =>
                    match webTotals config with
                    | none => .error .serverError
                    | some t =>
                        match secOrEmpty config "sender",
                              secOrEmpty config "bill_to" with
                        | some sender, some bill_to =>
                            .ok (⟨s, config, extractName sender,
                                  extractName bill_to, t.net_amount,
                                  t.vat_amount, t.total⟩, render_ok)
                        | _, _ => .error .serverError
                | _ => .error .serverError

/-- The upsert keyed on `invoice_number` (web/app.py lines 94-122): the
first row with the same invoice number is updated in place (its
`config_json`, names and totals are overwritten; the key is unchanged),
otherwise the new row is appended. -/
def upsertRow : List WebRow → WebRow → List WebRow
  | [], r => [r]
  | x :: rest, r =>
      if x.invoice_number = r.invoice_number then r :: rest
      else x :: upsertRow rest r

/-- One full `POST /api/generate` request against the database state: the
upsert is committed before rendering is attempted, so a render failure
(HTTP 500) leaves the upserted state in place. -/
def generate_invoice_api (db : List WebRow) (req : WebRequest) :
    List WebRow × WebResponse :=
  match processRequest req with
  | .error resp => (db, resp)
  | .ok (row, render_ok) =>
      (upsertRow db row, if render_ok then .pdfFile else .serverError)

/-- The database state after a sequence of `/api/generate` requests,
starting from an empty table. -/
def runRequests (reqs : List WebRequest) : List WebRow :=
  reqs.foldl (fun db r => (generate_invoice_api db r).1) []

/-- Number of rows holding a given invoice number. -/
def countKey (db : List WebRow) (k : String) : Nat :=
  (db.filter (fun r => r.invoice_number == k)).length

/-! ## date_calculator.py — calendar model

`datetime.date` is embedded as a year/month/day record (proleptic
Gregorian calendar, years 1-9999 as in Python's `datetime`), with
`date.toordinal()` computed from first principles so that
`date.weekday()` is `(ordinal + 6) % 7` (Monday = 0). -/

/-- A calendar date. -/
structure Date where
  year : Nat
  month : Nat
  day : Nat
  deriving DecidableEq

/-- Gregorian leap-year rule (`calendar.isleap`). -/
def isLeapYear (y : Nat) : Bool :=
  (y % 4 = 0 ∧ y % 100 ≠ 0) ∨ y % 400 = 0

/-- Number of days of a month (`calendar.monthrange(year, month)[1]`),
defined for months 1-12. -/
def daysInMonth (y m : Nat) : Nat :=
  if m = 2 then (if isLeapYear y then 29 else 28)
  else if m = 4 ∨ m = 6 ∨ m = 9 ∨ m = 11 then 30
  else 31

/-- Days in the months of year `y` strictly before month `m`. -/
def daysBeforeMonth (y : Nat) : Nat → Nat
  | 0 => 0
  | m + 1 => if m = 0 then 0 else daysBeforeMonth y m + daysInMonth y m

/-- Days in the years strictly before year `y` (year 1 is the first). -/
def daysBeforeYear (y : Nat) : Nat :=
  365 * (y - 1) + (y - 1) / 4 - (y - 1) / 100 + (y - 1) / 400

/-- Model of `date.toordinal()`: January 1 of year 1 is day 1. -/
def toOrdinal (d : Date) : Nat :=
  daysBeforeYear d.year + daysBeforeMonth d.year d.month + d.day

/-- Model of `date.weekday()`: 0 = Monday, ..., 6 = Sunday. -/
def weekday (d : Date) : Nat := (toOrdinal d + 6) % 7

/-- A date is valid when `datetime(year, month, day)` accepts it. -/
def validDate (d : Date) : Prop :=
  1 ≤ d.year ∧ d.year ≤ 9999 ∧ 1 ≤ d.month ∧ d.month ≤ 12 ∧
    1 ≤ d.day ∧ d.day ≤ daysInMonth d.year d.month

instance (d : Date) : Decidable (validDate d) := by
  unfold validDate; infer_instance

/-! ## date_calculator.py — working days and the due-date rule

The external `holidays` library is an oracle parameter
`hol : String → Date → Bool` (membership of a date in the holiday set of a
country); the claims below are settled with no country configured, where
the source skips the holiday lookup entirely. -/

/-- Model of `is_working_day(date_obj, country, holiday_cache)`
(date_calculator.py lines 75-108): Monday-Friday, and not a holiday when a
country is configured. -/
def is_working_day (d : Date) (country : Option String)
    (hol : String → Date → Bool) : Bool :=
  decide (weekday d < 5) &&
    (match country with
     | none => true
     | some c => !(hol c d))

/-- The backwards scan of `get_last_working_day_of_month`
(`for day in range(last_day, 0, -1)`). -/
def lwdScan (y m : Nat) (country : Option String) (hol : String → Date → Bool) :
    Nat → Option Date
  | 0 => none
  | day + 1 =>
      if is_working_day ⟨y, m, day + 1⟩ country hol then some ⟨y, m, day + 1⟩
      else lwdScan y m country hol day

/-- Model of `get_last_working_day_of_month(year, month, country,
holiday_cache)` (date_calculator.py lines 111-134).  `none` models the
exceptions of the source: `calendar.monthrange` raises `IllegalMonthError`
outside months 1-12 and `datetime(year, month, day)` rejects years outside
1-9999.  If no day of the month is a working day the source falls back to
the last calendar day. -/
def get_last_working_day_of_month (year month : ℤ) (country : Option String)
    (hol : String → Date → Bool) : Option Date :=
  if 1 ≤ month ∧ month ≤ 12 ∧ 1 ≤ year ∧ year ≤ 9999 then
    let y := year.toNat
    let m := month.toNat
    match lwdScan y m country hol (daysInMonth y m) with
    | some d => some d
    | none => some ⟨y, m, daysInMonth y m⟩
  else none

/-- The `due_date_config` sub-dict of the `dates` section. -/
structure DueDateConfig where
  rule : Option String
  month_offset : Option ℤ
  deriving DecidableEq

/-- The date-configuration dict handed to `calculate_due_date` (only the
keys that function reads). -/
structure DateConfig where
  mode : Option String
  due_date : Option String
  due_date_config : Option DueDateConfig
  deriving DecidableEq

/-! ## date_calculator.py — date string parsing and formatting

`datetime.strptime` compiles each format into an anchored regular
expression: `%d` and `%m` match one or two digits within range, `%Y`
exactly four digits, `%b`/`%B` the English month names; the whole string
must be consumed, and the matched numbers must form a constructible
`datetime`. -/

/-- Numeric value of a digit character. -/
def charVal (c : Char) : Nat := c.toNat - 48

/-- Parse one or two digits (the `%d` / `%m` regex classes match at most
two digits; range checks happen at the call sites). -/
def parse2 : List Char → Option (Nat × List Char)
  | [] => none
  | [c1] => if c1.isDigit then some (charVal c1, []) else none
  | c1 :: c2 :: rest =>
      if c1.isDigit then
        if c2.isDigit then some (10 * charVal c1 + charVal c2, rest)
        else some (charVal c1, c2 :: rest)
      else none

/-- Parse exactly four digits (the `%Y` regex). -/
def parse4 : List Char → Option (Nat × List Char)
  | c1 :: c2 :: c3 :: c4 :: rest =>
      if c1.isDigit ∧ c2.isDigit ∧ c3.isDigit ∧ c4.isDigit then
        some (1000 * charVal c1 + 100 * charVal c2 + 10 * charVal c3 +
          charVal c4, rest)
      else none
  | _ => none

/-- Consume one expected literal character. -/
def pExpect (c : Char) : List Char → Option (List Char)
  | x :: rest => if x = c then some rest else none
  | [] => none

/-- Abbreviated English month names (`%b`). -/
def monthAbbrev : Nat → List Char
  | 1 => ['J', 'a', 'n']
  | 2 => ['F', 'e', 'b']
  | 3 => ['M', 'a', 'r']
  | 4 => ['A', 'p', 'r']
  | 5 => ['M', 'a', 'y']
  | 6 => ['J', 'u', 'n']
  | 7 => ['J', 'u', 'l']
  | 8 => ['A', 'u', 'g']
  | 9 => ['S', 'e', 'p']
  | 10 => ['O', 'c', 't']
  | 11 => ['N', 'o', 'v']
  | 12 => ['D', 'e', 'c']
  | _ => []

/-- Full English month names (`%B`). -/
def monthFull : Nat → List Char
  | 1 => ['J', 'a', 'n', 'u', 'a', 'r', 'y']
  | 2 => ['F', 'e', 'b', 'r', 'u', 'a', 'r', 'y']
  | 3 => ['M', 'a', 'r', 'c', 'h']
  | 4 => ['A', 'p', 'r', 'i', 'l']
  | 5 => ['M', 'a', 'y']
  | 6 => ['J', 'u', 'n', 'e']
  | 7 => ['J', 'u', 'l', 'y']
  | 8 => ['A', 'u', 'g', 'u', 's', 't']
  | 9 => ['S', 'e', 'p', 't', 'e', 'm', 'b', 'e', 'r']
  | 10 => ['O', 'c', 't', 'o', 'b', 'e', 'r']
  | 11 => ['N', 'o', 'v', 'e', 'm', 'b', 'e', 'r']
  | 12 => ['D', 'e', 'c', 'e', 'm', 'b', 'e', 'r']
  | _ => []

/-- Match an abbreviated month name at the head of the input (`%b`; the
source formats with the C locale's canonical capitalization, which is what
its own parser receives on the round trip). -/
def parseMonthAbbrev : List Char → Option (Nat × List Char)
  | 'J' :: 'a' :: 'n' :: rest => some (1, rest)
  | 'F' :: 'e' :: 'b' :: rest => some (2, rest)
  | 'M' :: 'a' :: 'r' :: rest => some (3, rest)
  | 'A' :: 'p' :: 'r' :: rest => some (4, rest)
  | 'M' :: 'a' :: 'y' :: rest => some (5, rest)
  | 'J' :: 'u' :: 'n' :: rest => some (6, rest)
  | 'J' :: 'u' :: 'l' :: rest => some (7, rest)
  | 'A' :: 'u' :: 'g' :: rest => some (8, rest)
  | 'S' :: 'e' :: 'p' :: rest => some (9, rest)
  | 'O' :: 'c' :: 't' :: rest => some (10, rest)
  | 'N' :: 'o' :: 'v' :: rest => some (11, rest)
  | 'D' :: 'e' :: 'c' :: rest => some (12, rest)
  | _ => none

/-- Match a full month name at the head of the input (`%B`). -/
def parseMonthFull : List Char → Option (Nat × List Char)
  | 'J' :: 'a' :: 'n' :: 'u' :: 'a' :: 'r' :: 'y' :: rest => some (1, rest)
  | 'F' :: 'e' :: 'b' :: 'r' :: 'u' :: 'a' :: 'r' :: 'y' :: rest => some (2, rest)
  | 'M' :: 'a' :: 'r' :: 'c' :: 'h' :: rest => some (3, rest)
  | 'A' :: 'p' :: 'r' :: 'i' :: 'l' :: rest => some (4, rest)
  | 'M' :: 'a' :: 'y' :: rest => some (5, rest)
  | 'J' :: 'u' :: 'n' :: 'e' :: rest => some (6, rest)
  | 'J' :: 'u' :: 'l' :: 'y' :: rest => some (7, rest)
  | 'A' :: 'u' :: 'g' :: 'u' :: 's' :: 't' :: rest => some (8, rest)
  | 'S' :: 'e' :: 'p' :: 't' :: 'e' :: 'm' :: 'b' :: 'e' :: 'r' :: rest => some (9, rest)
  | 'O' :: 'c' :: 't' :: 'o' :: 'b' :: 'e' :: 'r' :: rest => some (10, rest)
  | 'N' :: 'o' :: 'v' :: 'e' :: 'm' :: 'b' :: 'e' :: 'r' :: rest => some (11, rest)
  | 'D' :: 'e' :: 'c' :: 'e' :: 'm' :: 'b' :: 'e' :: 'r' :: rest => some (12, rest)
  | _ => none

/-- Construct the parsed date, enforcing `datetime`'s own validity check
(rejecting e.g. February 30, and year 0 from a `0000` match). -/
def mkDate (y m d : Nat) : Option Date :=
  if 1 ≤ y ∧ y ≤ 9999 ∧ 1 ≤ m ∧ m ≤ 12 ∧ 1 ≤ d ∧ d ≤ daysInMonth y m then
    some ⟨y, m, d⟩
  else none

/-- strptime with `"%b %d, %Y"` (e.g. `Oct 06, 2025`). -/
def tryMonDY (l : List Char) : Option Date :=
  match parseMonthAbbrev l with
  | none => none
  | some (m, r1) =>
      match pExpect ' ' r1 with
      | none => none
      | some r2 =>
          match parse2 r2 with
          | none => none
          | some (d, r3) =>
              if 1 ≤ d ∧ d ≤ 31 then
                match pExpect ',' r3 with
                | none => none
                | some r4 =>
                    match pExpect ' ' r4 with
                    | none => none
                    | some r5 =>
                        match parse4 r5 with
                        | none => none
                        | some (y, r6) => if r6 = [] then mkDate y m d else none
              else none

/-- strptime with `"%B %d, %Y"` (e.g. `October 06, 2025`). -/
def tryMonthDY (l : List Char) : Option Date :=
  match parseMonthFull l with
  | none => none
  | some (m, r1) =>
      match pExpect ' ' r1 with
      | none => none
      | some r2 =>
          match parse2 r2 with
          | none => none
          | some (d, r3) =>
              if 1 ≤ d ∧ d ≤ 31 then
                match pExpect ',' r3 with
                | none => none
                | some r4 =>
                    match pExpect ' ' r4 with
                    | none => none
                    | some r5 =>
                        match parse4 r5 with
                        | none => none
                        | some (y, r6) => if r6 = [] then mkDate y m d else none
              else none

/-- strptime with `"%Y-%m-%d"` (e.g. `2025-10-06`). -/
def tryISO (l : List Char) : Option Date :=
  match parse4 l with
  | none => none
  | some (y, r1) =>
      match pExpect '-' r1 with
      | none => none
      | some r2 =>
          match parse2 r2 with
          | none => none
          | some (m, r3) =>
              if 1 ≤ m ∧ m ≤ 12 then
                match pExpect '-' r3 with
                | none => none
                | some r4 =>
                    match parse2 r4 with
                    | none => none
                    | some (d, r5) =>
                        if 1 ≤ d ∧ d ≤ 31 ∧ r5 = [] then mkDate y m d else none
              else none

/-- strptime with a two-number slash or dash date, first number `numA`,
second `numB`; `toDate` builds the date from the two numbers (day/month
order differs between formats).  `maxA`, `maxB` are the regex range bounds
(31 for `%d`, 12 for `%m`). -/
def tryTwoNum (sep : Char) (maxA maxB : Nat) (toDate : Nat → Nat → Nat → Option Date)
    (l : List Char) : Option Date :=
  match parse2 l with
  | none => none
  | some (a, r1) =>
      if 1 ≤ a ∧ a ≤ maxA then
        match pExpect sep r1 with
        | none => none
        | some r2 =>
            match parse2 r2 with
            | none => none
            | some (b, r3) =>
                if 1 ≤ b ∧ b ≤ maxB then
                  match pExpect sep r3 with
                  | none => none
                  | some r4 =>
                      match parse4 r4 with
                      | none => none
                      | some (y, r5) => if r5 = [] then toDate y a b else none
                else none
      else none

/-- strptime with `"%d/%m/%Y"`. -/
def tryDMYslash (l : List Char) : Option Date :=
  tryTwoNum '/' 31 12 (fun y d m => mkDate y m d) l

/-- strptime with `"%m/%d/%Y"`. -/
def tryMDYslash (l : List Char) : Option Date :=
  tryTwoNum '/' 12 31 (fun y m d => mkDate y m d) l

/-- strptime with `"%d-%m-%Y"`. -/
def tryDMYdash (l : List Char) : Option Date :=
  tryTwoNum '-' 31 12 (fun y d m => mkDate y m d) l

/-- Model of `parse_date_string(date_str)` (date_calculator.py lines
268-295): the six formats are tried in source order, the first success
wins; `none` models the final `ValueError`. -/
def parse_date_string (s : String) : Option Date :=
  let l := s.toList
  match tryMonDY l with
  | some d => some d
  | none =>
      match tryMonthDY l with
      | some d => some d
      | none =>
          match tryISO l with
          | some d => some d
          | none =>
              match tryDMYslash l with
              | some d => some d
              | none =>
                  match tryMDYslash l with
                  | some d => some d
                  | none => tryDMYdash l

/-- The six literal formats accepted by `parse_date_string`, in source
order. -/
inductive DateFormat where
  | fmtMonDY : DateFormat
  | fmtMonthDY : DateFormat
  | fmtISO : DateFormat
  | fmtDMYslash : DateFormat
  | fmtMDYslash : DateFormat
  | fmtDMYdash : DateFormat
  deriving DecidableEq

/-- Four-digit year (`%Y` under strftime, for years 1000-9999). -/
def year4 (y : Nat) : List Char :=
  [digitChar (y / 1000), digitChar (y / 100 % 10), digitChar (y / 10 % 10),
   digitChar (y % 10)]

/-- Model of `format_date_string(date, format_str)` (date_calculator.py
lines 298-309) at each of the six formats of `parse_date_string`
(`strftime` zero-pads `%d` and `%m` to two digits and prints `%Y` with
four digits for years 1000-9999). -/
def format_date_string (d : Date) : DateFormat → String
  | .fmtMonDY =>
      String.mk (monthAbbrev d.month ++ ' ' :: pad2 d.day ++ ',' :: ' ' :: year4 d.year)
  | .fmtMonthDY =>
      String.mk (monthFull d.month ++ ' ' :: pad2 d.day ++ ',' :: ' ' :: year4 d.year)
  | .fmtISO =>
      String.mk (year4 d.year ++ '-' :: pad2 d.month ++ '-' :: pad2 d.day)
  | .fmtDMYslash =>
      String.mk (pad2 d.day ++ '/' :: pad2 d.month ++ '/' :: year4 d.year)
  | .fmtMDYslash =>
      String.mk (pad2 d.month ++ '/' :: pad2 d.day ++ '/' :: year4 d.year)
  | .fmtDMYdash =>
      String.mk (pad2 d.day ++ '-' :: pad2 d.month ++ '-' :: year4 d.year)

/-- Model of `calculate_due_date(date_config, country, reference_date,
holiday_cache)` (date_calculator.py lines 194-239).  In explicit mode a
truthy `due_date` string is parsed and returned; otherwise the rule from
`due_date_config` applies (defaulting to the last working day of the
current month with `month_offset` 0); the target month wraps into the next
year by a single subtraction of 12, and an unrecognized rule falls back to
the reference date.  `none` models a raised exception. -/
def calculate_due_date (date_config : DateConfig) (country : Option String)
    (reference_date : Date) (hol : String → Date → Bool) : Option Date :=
  let mode := date_config.mode.getD "explicit"
  let due_date_config := date_config.due_date_config.getD ⟨none, none⟩
  if mode = "explicit" ∧ pyTruthyStrOpt date_config.due_date then
    parse_date_string (date_config.due_date.getD "")
  else
    let rule := due_date_config.rule.getD "last_working_day_current_month"
    let month_offset := due_date_config.month_offset.getD 0
    if rule = "today" then some reference_date
    else if rule = "last_working_day_current_month" ∨
        rule = "last_working_day_next_month" then
      let target_month : ℤ := (reference_date.month : ℤ) + month_offset
      let target_year : ℤ := (reference_date.year : ℤ)
      let target : ℤ × ℤ :=
        if target_month > 12 then (target_year + 1, target_month - 12)
        else (target_year, target_month)
      get_last_working_day_of_month target.1 target.2 country hol
    else some reference_date

/-! ## Shape predicates and example configuration

`wellShapedConfig` delimits the configurations on which the embedded
`validate_config` agrees with the Python source exactly: sections that the
source accesses as dicts are dicts (a non-dict there makes Python raise
`AttributeError`/`TypeError` instead of `ValueError`), `line_items` is a
list, and the invoice number and due-date rule are strings when present. -/

def jIsObj : Json → Bool
  | .obj _ => true
  | _ => false

def optIsObjOrAbsent : Option Json → Bool
  | none => true
  | some (.obj _) => true
  | some _ => false

def optIsStrOrAbsent : Option Json → Bool
  | none => true
  | some (.str _) => true
  | some _ => false

def optIsArrOrAbsent : Option Json → Bool
  | none => true
  | some (.arr _) => true
  | some _ => false

def ruleValue (c : Json) : Option Json :=
  match jGetIn c "dates" "due_date_config" with
  | some ddc => jGet ddc "rule"
  | none => none

def datesMode (c : Json) : Json :=
  (jGetIn c "dates" "mode").getD (.str "explicit")

def wellShapedConfig (c : Json) : Bool :=
  jIsObj c &&
  optIsObjOrAbsent (jGet c "invoice") &&
  optIsStrOrAbsent (jGetIn c "invoice" "invoice_number") &&
  optIsArrOrAbsent (jGet c "line_items") &&
  optIsObjOrAbsent (jGet c "dates") &&
  optIsObjOrAbsent (jGetIn c "dates" "due_date_config") &&
  optIsStrOrAbsent (ruleValue c)

/-! ## Example configuration used by concrete witnesses -/

def exampleConfig : Json :=
  .obj (.cons "sender" (.obj (.cons "name" (.str "Acme") .nil))
    (.cons "invoice" (.obj (.cons "invoice_number" (.str "INV-001") .nil))
      (.cons "bill_to" (.obj .nil)
        (.cons "line_items" (.arr (.cons (mkItem 100) .nil)) .nil))))

def exampleRow : WebRow :=
  ⟨"INV-001", exampleConfig, some (.str "Acme"), none, 100, 23, 123⟩

/-! ## Helper lemmas -/

theorem roundHalfEven_intCast (n : ℤ) : roundHalfEven (n : ℚ) = n := by
  unfold roundHalfEven
  simp [Int.floor_intCast]

theorem pyRound2_eq (q : ℚ) (n : ℤ) (h : q * 100 = (n : ℚ)) :
    pyRound2 q = (n : ℚ) / 100 := by
  unfold pyRound2
  rw [h, roundHalfEven_intCast]

theorem pyRound2_intCast (n : ℤ) : pyRound2 ((n : ℚ)) = n := by
  rw [pyRound2_eq (n : ℚ) (n * 100) (by push_cast; ring)]
  push_cast
  field_simp

theorem roundHalfEven_add_half (n : ℤ) :
    roundHalfEven ((n : ℚ) + 1/2) = if n % 2 = 0 then n else n + 1 := by
  have hf : ⌊(n : ℚ) + 1/2⌋ = n := by
    rw [Int.floor_eq_iff]
    constructor
    · linarith
    · linarith
  unfold roundHalfEven
  simp only [hf]
  have h1 : ¬((n : ℚ) + 1/2 - n < 1/2) := by norm_num
  have h2 : ¬((1:ℚ)/2 < (n : ℚ) + 1/2 - n) := by norm_num
  rw [if_neg h1, if_neg h2]

theorem sumAmounts_itemsOf (l : List ℚ) : sumAmounts (itemsOf l) = some l.sum := by
  induction l with
  | nil => simp [itemsOf, sumAmounts]
  | cons a rest ih => simp [itemsOf, sumAmounts, getAmount, mkItem, lookupField, ih]

theorem toList_pyReplaceChar (s : String) (a b : Char) :
    (pyReplaceChar s a b).toList = s.toList.map (fun c => if c = a then b else c) := by
  rfl

/-! ## C1 -/

/-- C1 counterexample: `format_amount(1234.5)` does not render as
`"1 234,50"` — the source only replaces commas by spaces and keeps the
decimal point. -/
theorem c1_counterexample : format_amount (2469/2) ≠ "1 234,50" := by
  have hc : roundHalfEven ((2469:ℚ)/2 * 100) = 123450 := by
    rw [show ((2469:ℚ)/2 * 100) = ((123450 : ℤ) : ℚ) by norm_num, roundHalfEven_intCast]
  have hq : ¬ ((2469:ℚ)/2 < 0) := by norm_num
  unfold format_amount pyFormatCommaFixed2
  rw [hc, if_neg hq]
  decide

/-- C1 (amended): `format_amount` renders with space-grouped thousands and
a period as the decimal separator (no currency prefix): no comma ever
appears in its output, and `format_amount(1234.5) = "1 234.50"`. -/
theorem c1_format_amount : (∀ q : ℚ, ',' ∉ (format_amount q).toList) ∧
    format_amount (2469/2) = "1 234.50" := by
  constructor
  · intro q
    unfold format_amount
    rw [toList_pyReplaceChar]
    intro hmem
    obtain ⟨c, -, heq⟩ := List.mem_map.mp hmem
    by_cases hc : c = ','
    · rw [if_pos hc] at heq
      exact (by decide : (' ' : Char) ≠ ',') heq
    · rw [if_neg hc] at heq
      exact hc heq
  · have hc : roundHalfEven ((2469:ℚ)/2 * 100) = 123450 := by
      rw [show ((2469:ℚ)/2 * 100) = ((123450 : ℤ) : ℚ) by norm_num, roundHalfEven_intCast]
    have hq : ¬ ((2469:ℚ)/2 < 0) := by norm_num
    unfold format_amount pyFormatCommaFixed2
    rw [hc, if_neg hq]
    decide

/-! ## more helpers -/

theorem pyRound2_eq_of (q r : ℚ) (n : ℤ) (h1 : q * 100 = (n : ℚ))
    (h2 : (n : ℚ) = r * 100) : pyRound2 q = r := by
  rw [pyRound2_eq q n h1, h2]
  field_simp

theorem pyRound2_tie_even (q r : ℚ) (n : ℤ) (hn : n % 2 = 0)
    (h1 : q * 100 = (n : ℚ) + 1/2) (h2 : (n : ℚ) = r * 100) : pyRound2 q = r := by
  unfold pyRound2
  rw [h1, roundHalfEven_add_half, if_pos hn, h2]
  field_simp

/-! ## C2 -/

/-- C2 counterexample: with a negative line-item total the source returns
`vat_amount = 0` (its VAT branch requires `net_amount > 0`) where the claim
predicts `round(N×R/100, 2) = -23`; and in a tie case the returned total
`round(N + N×R/100, 2) = 2.01` differs from the sum `2.00` of the returned
(rounded) net and VAT amounts. -/
theorem c2_counterexample :
    calculate_totals (itemsOf [-100]) 23 true = some ⟨-100, 0, -100⟩ ∧
    pyRound2 ((-100) * 23 / 100) = -23 ∧ (0 : ℚ) ≠ -23 ∧
    calculate_totals (itemsOf [201/200]) 100 true = some ⟨1, 1, 201/100⟩ ∧
    (1 : ℚ) + 1 ≠ 201/100 := by
  have e1 : pyRound2 ((-100 : ℚ)) = -100 := pyRound2_eq_of _ _ (-10000) (by norm_num) (by norm_num)
  have e2 : pyRound2 ((0 : ℚ)) = 0 := pyRound2_eq_of _ _ 0 (by norm_num) (by norm_num)
  have e3 : pyRound2 ((-100) * 23 / 100 : ℚ) = -23 :=
    pyRound2_eq_of _ _ (-2300) (by norm_num) (by norm_num)
  have e4 : pyRound2 ((201/200 : ℚ)) = 1 :=
    pyRound2_tie_even _ _ 100 (by decide) (by norm_num) (by norm_num)
  have e5 : pyRound2 ((201/100 : ℚ)) = 201/100 :=
    pyRound2_eq_of _ _ 201 (by norm_num) (by norm_num)
  refine ⟨?_, e3, by norm_num, ?_, by norm_num⟩
  · norm_num [calculate_totals, sumAmounts_itemsOf, e1, e2]
  · norm_num [calculate_totals, sumAmounts_itemsOf, e4, e5]

/-- C2 (amended): for line items with positive total N and any VAT rate R,
`calculate_totals` with `apply_to_net` returns `net_amount = round(N, 2)`,
`vat_amount = round(N×R/100, 2)` and `total = round(N + N×R/100, 2)` (the
total is rounded from the exact sum, so it can differ from the sum of the
two rounded parts in tie cases; for a non-positive total the VAT is 0). -/
theorem c2_totals_apply_to_net (amts : List ℚ) (R : ℚ) (hpos : 0 < amts.sum) :
    calculate_totals (itemsOf amts) R true =
      some ⟨pyRound2 amts.sum, pyRound2 (amts.sum * R / 100),
            pyRound2 (amts.sum + amts.sum * R / 100)⟩ := by
  simp only [calculate_totals, sumAmounts_itemsOf]
  rw [if_pos ⟨trivial, hpos⟩]
  have harg : amts.sum * R / 100 = amts.sum * (R / 100) := by ring
  rw [harg]

/-- C2 witness: items summing to 1000 at rate 23. -/
theorem c2_totals_apply_to_net_witness :
    0 < ([1000] : List ℚ).sum ∧
    calculate_totals (itemsOf [1000]) 23 true =
      some ⟨pyRound2 ([1000] : List ℚ).sum, pyRound2 (([1000] : List ℚ).sum * 23 / 100),
            pyRound2 (([1000] : List ℚ).sum + ([1000] : List ℚ).sum * 23 / 100)⟩ :=
  ⟨by norm_num, c2_totals_apply_to_net [1000] 23 (by norm_num)⟩

/-! ## C8 -/

/-- C8: with `apply_to_net = false` the input total S is treated as
VAT-inclusive: net is backed out as `round(S/(1+R/100), 2)`, VAT is the
rounded difference, and the total is `round(S, 2)`; in particular
S = 1230.00 at R = 23.0 yields exactly (1000.00, 230.00, 1230.00).  (The
hypothesis excludes R = -100, where the Python source would raise
`ZeroDivisionError`.) -/
theorem c8_totals_vat_inclusive :
    (∀ (amts : List ℚ) (R : ℚ), 1 + R / 100 ≠ 0 →
      calculate_totals (itemsOf amts) R false =
        some ⟨pyRound2 (amts.sum / (1 + R / 100)),
              pyRound2 (amts.sum - amts.sum / (1 + R / 100)),
              pyRound2 amts.sum⟩) ∧
    calculate_totals (itemsOf [1230]) 23 false = some ⟨1000, 230, 1230⟩ := by
  have main : ∀ (amts : List ℚ) (R : ℚ), 1 + R / 100 ≠ 0 →
      calculate_totals (itemsOf amts) R false =
        some ⟨pyRound2 (amts.sum / (1 + R / 100)),
              pyRound2 (amts.sum - amts.sum / (1 + R / 100)),
              pyRound2 amts.sum⟩ := by
    intro amts R hR
    simp only [calculate_totals, sumAmounts_itemsOf]
    rw [if_neg (by simp), if_pos (by simp)]
    have harg : amts.sum / (1 + R / 100) + (amts.sum - amts.sum / (1 + R / 100)) =
        amts.sum := by ring
    rw [harg]
  refine ⟨main, ?_⟩
  rw [main [1230] 23 (by norm_num)]
  have e1 : pyRound2 ((1000 : ℚ)) = 1000 :=
    pyRound2_eq_of _ _ 100000 (by norm_num) (by norm_num)
  have e2 : pyRound2 ((230 : ℚ)) = 230 :=
    pyRound2_eq_of _ _ 23000 (by norm_num) (by norm_num)
  have e3 : pyRound2 ((1230 : ℚ)) = 1230 :=
    pyRound2_eq_of _ _ 123000 (by norm_num) (by norm_num)
  norm_num [e1, e2, e3]

/-- C8 witness for the quantified part. -/
theorem c8_totals_vat_inclusive_witness :
    (1 + (23 : ℚ) / 100 ≠ 0) ∧
    calculate_totals (itemsOf [1230]) 23 false =
      some ⟨pyRound2 (([1230] : List ℚ).sum / (1 + 23 / 100)),
            pyRound2 (([1230] : List ℚ).sum - ([1230] : List ℚ).sum / (1 + 23 / 100)),
            pyRound2 ([1230] : List ℚ).sum⟩ :=
  ⟨by norm_num, c8_totals_vat_inclusive.1 [1230] 23 (by norm_num)⟩

/-! ## C4 -/

/-- C4 counterexample: with no `template` section, `get_template_config`
returns section spacing 1.0 (the `from_dict` fallback), which differs from
the `default` preset's dataclass value 1.2. -/
theorem c4_counterexample :
    (get_template_config none).map (fun c => c.style.section_spacing) = some 1 ∧
    (TemplateConfig.get_preset "default").style.section_spacing = 6/5 ∧
    (1 : ℚ) ≠ 6/5 := by
  refine ⟨rfl, rfl, by norm_num⟩

/-- C4 (amended): with the `template` section absent (or present but
empty, without a preset), `get_template_config` builds a configuration
whose Layout equals the `default` preset's and whose Style agrees with the
`default` preset on every field except `section_spacing` (1.0 instead of
the preset's 1.2) and `table_padding` (6 instead of the preset's 8), the
two fields whose `from_dict` fallbacks differ from the dataclass
defaults. -/
theorem c4_empty_template_defaults :
    get_template_config none = get_template_config (some emptyTemplateData) ∧
    ∃ c, get_template_config none = some c ∧
      c.layout = (TemplateConfig.get_preset "default").layout ∧
      c.preset = (TemplateConfig.get_preset "default").preset ∧
      c.style.primary_color = (TemplateConfig.get_preset "default").style.primary_color ∧
      c.style.secondary_color = (TemplateConfig.get_preset "default").style.secondary_color ∧
      c.style.accent_color = (TemplateConfig.get_preset "default").style.accent_color ∧
      c.style.title_font_size = (TemplateConfig.get_preset "default").style.title_font_size ∧
      c.style.header_font_size = (TemplateConfig.get_preset "default").style.header_font_size ∧
      c.style.normal_font_size = (TemplateConfig.get_preset "default").style.normal_font_size ∧
      c.style.info_font_size = (TemplateConfig.get_preset "default").style.info_font_size ∧
      c.style.top_margin = (TemplateConfig.get_preset "default").style.top_margin ∧
      c.style.bottom_margin = (TemplateConfig.get_preset "default").style.bottom_margin ∧
      c.style.left_margin = (TemplateConfig.get_preset "default").style.left_margin ∧
      c.style.right_margin = (TemplateConfig.get_preset "default").style.right_margin ∧
      c.style.section_spacing = 1 ∧
      (TemplateConfig.get_preset "default").style.section_spacing = 6/5 ∧
      c.style.table_padding = 6 ∧
      (TemplateConfig.get_preset "default").style.table_padding = 8 := by
  exact ⟨rfl, _, rfl, rfl, rfl, rfl, rfl, rfl, rfl, rfl, rfl, rfl, rfl, rfl, rfl, rfl,
    rfl, rfl, rfl, rfl⟩

theorem jListLength_eq_zero (xs : JList) : jListLength xs = 0 ↔ xs = .nil := by
  cases xs <;> simp [jListLength]

/-! ## C6 theorem -/

/-- C6: on every well-shaped configuration, `validate_config` raises
`ValueError` (returns `.error`) exactly when a required top-level section
is absent, the invoice number is absent or empty, `line_items` is empty,
`dates.mode` is outside {explicit, calculated}, or calculated mode
supplies a (truthy) due-date rule outside the three recognized names; on
every other configuration it returns `True`.  The source performs no
mutation, which the pure embedding reflects. -/
theorem c6_validate_config (c : Json) (hws : wellShapedConfig c = true) :
    ((∃ e, validate_config c = .error e) ↔
      (jGet c "sender" = none ∨ jGet c "invoice" = none ∨ jGet c "bill_to" = none ∨
        jGet c "line_items" = none ∨
        jGetIn c "invoice" "invoice_number" = none ∨
        jGetIn c "invoice" "invoice_number" = some (.str "") ∨
        jGet c "line_items" = some (.arr .nil) ∨
        (datesMode c ≠ Json.str "explicit" ∧ datesMode c ≠ Json.str "calculated") ∨
        (datesMode c = Json.str "calculated" ∧
          ∃ r, ruleValue c = some (.str r) ∧ r ≠ "" ∧ r ∉ validRules))) ∧
    (¬ (jGet c "sender" = none ∨ jGet c "invoice" = none ∨ jGet c "bill_to" = none ∨
        jGet c "line_items" = none ∨
        jGetIn c "invoice" "invoice_number" = none ∨
        jGetIn c "invoice" "invoice_number" = some (.str "") ∨
        jGet c "line_items" = some (.arr .nil) ∨
        (datesMode c ≠ Json.str "explicit" ∧ datesMode c ≠ Json.str "calculated") ∨
        (datesMode c = Json.str "calculated" ∧
          ∃ r, ruleValue c = some (.str r) ∧ r ≠ "" ∧ r ∉ validRules)) →
      validate_config c = .ok true) := by
  simp only [wellShapedConfig, Bool.and_eq_true] at hws
  obtain ⟨⟨⟨⟨⟨⟨hobj, hinv⟩, hnum⟩, hli⟩, hdts⟩, hddc⟩, hrule⟩ := hws
  by_cases h1 : jGet c "sender" = none
  · refine ⟨by simp [validate_config, h1], fun hnb => absurd (Or.inl h1) hnb⟩
  by_cases h2 : jGet c "invoice" = none
  · exact ⟨by simp [validate_config, h1, h2], fun hnb => absurd (Or.inr (Or.inl h2)) hnb⟩
  by_cases h3 : jGet c "bill_to" = none
  · exact ⟨by simp [validate_config, h1, h2, h3],
      fun hnb => absurd (Or.inr (Or.inr (Or.inl h3))) hnb⟩
  by_cases h4 : jGet c "line_items" = none
  · exact ⟨by simp [validate_config, h1, h2, h3, h4],
      fun hnb => absurd (Or.inr (Or.inr (Or.inr (Or.inl h4)))) hnb⟩
  rcases hnumv : jGetIn c "invoice" "invoice_number" with _ | numJ
  · exact ⟨by simp [validate_config, h1, h2, h3, h4, hnumv, jTruthy],
      fun hnb => absurd (by tauto) hnb⟩
  obtain ⟨s, rfl⟩ : ∃ s, numJ = .str s := by
    rw [hnumv] at hnum
    cases numJ <;> simp_all [optIsStrOrAbsent]
  by_cases hse : s = ""
  · subst hse
    exact ⟨by simp [validate_config, h1, h2, h3, h4, hnumv, jTruthy, String.isEmpty_iff],
      fun hnb => absurd (by tauto) hnb⟩
  obtain ⟨xs, hliv⟩ : ∃ xs, jGet c "line_items" = some (.arr xs) := by
    rcases hv : jGet c "line_items" with _ | v
    · exact absurd hv h4
    · rw [hv] at hli
      cases v <;> simp_all [optIsArrOrAbsent]
  have hsne : ¬ s.isEmpty := by simpa [String.isEmpty_iff] using hse
  rcases xs with _ | ⟨x, xs'⟩
  · exact ⟨by simp [validate_config, h1, h2, h3, h4, hnumv, hliv, jTruthy, hsne],
      fun hnb =>
        absurd (Or.inr (Or.inr (Or.inr (Or.inr (Or.inr (Or.inr (Or.inl hliv))))))) hnb⟩
  by_cases h7 : datesMode c ≠ Json.str "explicit" ∧ datesMode c ≠ Json.str "calculated"
  · have h7e : ¬ (jGetIn c "dates" "mode").getD (.str "explicit") = Json.str "explicit" ∧
        ¬ (jGetIn c "dates" "mode").getD (.str "explicit") = Json.str "calculated" := by
      simpa [datesMode] using h7
    refine ⟨?_, fun hnb =>
      absurd (Or.inr (Or.inr (Or.inr (Or.inr (Or.inr (Or.inr (Or.inr (Or.inl h7)))))))) hnb⟩
    simp [validate_config, h1, h2, h3, h4, hnumv, hliv, jTruthy, hsne, jLen,
      jListLength, h7e, h7.1, h7.2]
  rw [not_and_or, not_not, not_not] at h7
  by_cases h8 : datesMode c = Json.str "calculated"
  · have h8e : (jGetIn c "dates" "mode").getD (.str "explicit") = Json.str "calculated" := by
      simpa [datesMode] using h8
    rcases hddcv : jGetIn c "dates" "due_date_config" with _ | ddc
    · have hrvE : ruleValue c = none := by simp [ruleValue, hddcv]
      have hok : validate_config c = .ok true := by
        simp [validate_config, h1, h2, h3, h4, hnumv, hliv, jTruthy, hsne, jLen,
          jListLength, h8e, hddcv]
      refine ⟨?_, fun _ => hok⟩
      simp [hok, h1, h2, h3, h4, hnumv, hliv, hse, h8e, hrvE, datesMode]
    · rcases hrv : jGet ddc "rule" with _ | ruleJ
      · have hrvE : ruleValue c = none := by simp [ruleValue, hddcv, hrv]
        have hok : validate_config c = .ok true := by
          simp [validate_config, h1, h2, h3, h4, hnumv, hliv, jTruthy, hsne, jLen,
            jListLength, h8e, hddcv, hrv]
        refine ⟨?_, fun _ => hok⟩
        simp [hok, h1, h2, h3, h4, hnumv, hliv, hse, h8e, hrvE, datesMode]
      · have hrvE : ruleValue c = some ruleJ := by simp [ruleValue, hddcv, hrv]
        obtain ⟨r, rfl⟩ : ∃ r, ruleJ = .str r := by
          rw [hrvE] at hrule
          cases ruleJ <;> simp_all [optIsStrOrAbsent]
        by_cases hre : r = ""
        · subst hre
          have hok : validate_config c = .ok true := by
            simp [validate_config, h1, h2, h3, h4, hnumv, hliv, jTruthy, hsne, jLen,
              jListLength, h8e, hddcv, hrv, String.isEmpty_iff]
          refine ⟨?_, fun _ => hok⟩
          simp [hok, h1, h2, h3, h4, hnumv, hliv, hse, h8e, hrvE, datesMode]
        · have hrne : ¬ r.isEmpty := by simpa [String.isEmpty_iff] using hre
          by_cases hrin : r ∈ validRules
          · have hok : validate_config c = .ok true := by
              simp [validate_config, h1, h2, h3, h4, hnumv, hliv, jTruthy, hsne, jLen,
                jListLength, h8e, hddcv, hrv, hrne]
              exact hrin
            refine ⟨?_, fun _ => hok⟩
            simp [hok, h1, h2, h3, h4, hnumv, hliv, hse, h8e, hrvE, datesMode, hrin]
          · have herr : validate_config c = .error .invalidDueDateRule := by
              simp [validate_config, h1, h2, h3, h4, hnumv, hliv, jTruthy, hsne, jLen,
                jListLength, h8e, hddcv, hrv, hrne]
              exact hrin
            refine ⟨?_, fun hnb => absurd ?_ hnb⟩
            · simp [herr, h8, hrvE]
              tauto
            · refine Or.inr (Or.inr (Or.inr (Or.inr (Or.inr (Or.inr (Or.inr (Or.inr
                ⟨h8, r, hrvE, hre, hrin⟩)))))))
  · have hex : datesMode c = Json.str "explicit" := h7.resolve_right h8
    have hexe : (jGetIn c "dates" "mode").getD (.str "explicit") = Json.str "explicit" := by
      simpa [datesMode] using hex
    have hok : validate_config c = .ok true := by
      simp [validate_config, h1, h2, h3, h4, hnumv, hliv, jTruthy, hsne, jLen,
        jListLength, hexe]
    refine ⟨?_, fun _ => hok⟩
    simp [hok, h1, h2, h3, h4, hnumv, hliv, hse, hexe, h8, datesMode]

/-! ## C10 -/

/-- C10: `InvoiceGenerator.update_config` applies the deep merge to the
held configuration before validating, so when the merged configuration is
invalid the raised validation error leaves the generator holding the
merged (now invalid) values — demonstrated with a valid configuration
updated with an empty `line_items` list. -/
theorem c10_update_config :
    (∀ config config_updates : Json,
      (InvoiceGenerator.update_config config config_updates).1 =
        deep_update config config_updates) ∧
    validate_config exampleConfig = .ok true ∧
    (InvoiceGenerator.update_config exampleConfig
        (.obj (.cons "line_items" (.arr .nil) .nil))).2 = .error .lineItemsRequired ∧
    jGet (InvoiceGenerator.update_config exampleConfig
        (.obj (.cons "line_items" (.arr .nil) .nil))).1 "line_items" =
      some (.arr .nil) ∧
    (InvoiceGenerator.update_config exampleConfig
        (.obj (.cons "line_items" (.arr .nil) .nil))).1 =
      deep_update exampleConfig (.obj (.cons "line_items" (.arr .nil) .nil)) :=
  ⟨fun _ _ => rfl, by rfl, by rfl, by rfl, rfl⟩

/-! ## upsert lemmas -/

theorem countKey_nil (k : String) : countKey [] k = 0 := rfl

theorem countKey_cons (x : WebRow) (db : List WebRow) (k : String) :
    countKey (x :: db) k = (if x.invoice_number = k then 1 else 0) + countKey db k := by
  by_cases h : x.invoice_number = k
  · simp [countKey, List.filter_cons, h, Nat.add_comm]
  · simp [countKey, List.filter_cons, h]

theorem upsertRow_count_ne (db : List WebRow) (r : WebRow) (k : String)
    (h : r.invoice_number ≠ k) : countKey (upsertRow db r) k = countKey db k := by
  induction db with
  | nil => simp [upsertRow, countKey_cons, countKey_nil, h]
  | cons x rest ih =>
      by_cases hx : x.invoice_number = r.invoice_number
      · simp [upsertRow, hx, countKey_cons, h, hx ▸ h]
      · simp [upsertRow, hx, countKey_cons, ih]

theorem upsertRow_count_le (db : List WebRow) (r : WebRow) (k : String)
    (h : countKey db k ≤ 1) : countKey (upsertRow db r) k ≤ 1 := by
  induction db with
  | nil =>
      by_cases hk : r.invoice_number = k <;>
        simp [upsertRow, countKey_cons, countKey_nil, hk]
  | cons x rest ih =>
      rw [countKey_cons] at h
      by_cases hx : x.invoice_number = r.invoice_number
      · have hup : upsertRow (x :: rest) r = r :: rest := by simp [upsertRow, hx]
        rw [hup, countKey_cons]
        by_cases hk : r.invoice_number = k
        · have hxk : x.invoice_number = k := by rw [hx, hk]
          rw [if_pos hxk] at h
          rw [if_pos hk]
          omega
        · have hxk : ¬ x.invoice_number = k := by rw [hx]; exact hk
          rw [if_neg hxk] at h
          rw [if_neg hk]
          omega
      · have hup : upsertRow (x :: rest) r = x :: upsertRow rest r := by
          simp [upsertRow, hx]
        rw [hup, countKey_cons]
        by_cases hk : x.invoice_number = k
        · rw [if_pos hk] at h ⊢
          have hr : r.invoice_number ≠ k := fun he => hx (by rw [he, hk])
          rw [upsertRow_count_ne rest r k hr]
          omega
        · rw [if_neg hk] at h ⊢
          have := ih (by omega)
          omega

theorem countKey_eq_zero_filter (db : List WebRow) (k : String)
    (h : countKey db k = 0) :
    db.filter (fun x => x.invoice_number == k) = [] := by
  unfold countKey at h
  exact List.length_eq_zero.mp h

theorem upsertRow_filter_eq (db : List WebRow) (r : WebRow)
    (h : countKey db r.invoice_number ≤ 1) :
    (upsertRow db r).filter (fun x => x.invoice_number == r.invoice_number) = [r] := by
  induction db with
  | nil => simp [upsertRow, List.filter]
  | cons x rest ih =>
      rw [countKey_cons] at h
      by_cases hx : x.invoice_number = r.invoice_number
      · rw [if_pos hx] at h
        have h0 : countKey rest r.invoice_number = 0 := by omega
        simp only [upsertRow, if_pos hx, List.filter_cons]
        simp [countKey_eq_zero_filter rest r.invoice_number h0]
      · rw [if_neg hx] at h
        simp only [upsertRow, if_neg hx, List.filter_cons]
        rw [if_neg (by simpa using hx)]
        exact ih (by omega)

theorem upsertRow_self_mem (db : List WebRow) (r : WebRow) : r ∈ upsertRow db r := by
  induction db with
  | nil => simp [upsertRow]
  | cons x rest ih =>
      by_cases hx : x.invoice_number = r.invoice_number
      · simp [upsertRow, hx]
      · simp [upsertRow, hx, ih]

theorem step_countKey_le (db : List WebRow) (req : WebRequest) (k : String)
    (h : countKey db k ≤ 1) :
    countKey (generate_invoice_api db req).1 k ≤ 1 := by
  unfold generate_invoice_api
  cases hpr : processRequest req with
  | error resp => simpa using h
  | ok rr =>
      rcases rr with ⟨row, render_ok⟩
      simpa using upsertRow_count_le db row k h

theorem runRequests_append_one (reqs : List WebRequest) (req : WebRequest) :
    runRequests (reqs ++ [req]) = (generate_invoice_api (runRequests reqs) req).1 := by
  unfold runRequests
  rw [List.foldl_append]
  rfl

theorem runRequests_countKey_le (reqs : List WebRequest) (k : String) :
    countKey (runRequests reqs) k ≤ 1 := by
  suffices h : ∀ db, (∀ k', countKey db k' ≤ 1) →
      ∀ k', countKey (reqs.foldl (fun db r => (generate_invoice_api db r).1) db) k' ≤ 1 by
    exact h [] (fun k' => by simp [countKey_nil]) k
  induction reqs with
  | nil => intro db hdb k'; simpa using hdb k'
  | cons r rest ih =>
      intro db hdb k'
      simp only [List.foldl_cons]
      exact ih _ (fun k'' => step_countKey_le db r k'' (hdb k'')) k'

/-! ## processRequest inversion -/

theorem processRequest_ok_spec (config : Json) (b b' : Bool) (row : WebRow)
    (h : processRequest (.valid config b) = .ok (row, b')) :
    b' = b ∧ row.config_json = config ∧
    ∃ t, webTotals config = some t ∧ row.subtotal = t.net_amount ∧
      row.tax_amount = t.vat_amount ∧ row.total = t.total := by
  simp only [processRequest] at h
  rcases h1 : secOrEmpty config "invoice" with _ | inv
  · rw [h1] at h; exact absurd h (by simp)
  rw [h1] at h
  try dsimp only at h
  rcases h2 : jGet inv "invoice_number" with _ | numJ
  · rw [h2] at h; exact absurd h (by simp)
  rw [h2] at h
  try dsimp only at h
  by_cases h3 : jTruthy numJ = false
  · rw [if_pos h3] at h
    exact absurd h (by simp)
  rw [if_neg h3] at h
  obtain ⟨s, rfl⟩ : ∃ s, numJ = .str s := by
    cases numJ <;> first | exact ⟨_, rfl⟩ | exact absurd h (by simp)
  rcases h4 : webTotals config with _ | t
  · rw [h4] at h; exact absurd h (by simp)
  rw [h4] at h
  try dsimp only at h
  rcases h5 : secOrEmpty config "sender" with _ | sender
  · rw [h5] at h; exact absurd h (by simp)
  rw [h5] at h
  try dsimp only at h
  rcases h6 : secOrEmpty config "bill_to" with _ | bill
  · rw [h6] at h; exact absurd h (by simp)
  rw [h6] at h
  try dsimp only at h
  simp only [Except.ok.injEq, Prod.mk.injEq] at h
  obtain ⟨hrow, hb⟩ := h
  subst hrow
  exact ⟨hb.symm, rfl, t, rfl, rfl, rfl, rfl⟩


/-! ## C7 -/

/-- C7: after any sequence of `POST /api/generate` requests the invoices
table holds at most one row per invoice number, and a final successful
request leaves exactly one row for its invoice number — the row carrying
that request's configuration and totals (an existing row is updated in
place, a new number is appended as exactly one new row). -/
theorem c7_upsert_by_invoice_number :
    (∀ (reqs : List WebRequest) (k : String), countKey (runRequests reqs) k ≤ 1) ∧
    (∀ (reqs : List WebRequest) (config : Json) (render_ok b : Bool) (row : WebRow),
      processRequest (.valid config render_ok) = .ok (row, b) →
      countKey (runRequests (reqs ++ [.valid config render_ok])) row.invoice_number = 1 ∧
      (runRequests (reqs ++ [.valid config render_ok])).filter
        (fun x => x.invoice_number == row.invoice_number) = [row] ∧
      row.config_json = config ∧
      (∃ t, webTotals config = some t ∧ row.subtotal = t.net_amount ∧
        row.tax_amount = t.vat_amount ∧ row.total = t.total)) := by
  refine ⟨fun reqs k => runRequests_countKey_le reqs k, ?_⟩
  intro reqs config render_ok b row h
  have hdb := runRequests_countKey_le reqs row.invoice_number
  have hstep : runRequests (reqs ++ [.valid config render_ok]) =
      upsertRow (runRequests reqs) row := by
    rw [runRequests_append_one]
    unfold generate_invoice_api
    rw [h]
  have hfil : (runRequests (reqs ++ [.valid config render_ok])).filter
      (fun x => x.invoice_number == row.invoice_number) = [row] := by
    rw [hstep]
    exact upsertRow_filter_eq _ row hdb
  obtain ⟨-, hcfg, hts⟩ := processRequest_ok_spec config render_ok b row h
  refine ⟨?_, hfil, hcfg, hts⟩
  unfold countKey
  rw [hfil]
  rfl

/-! ## C9 -/

/-- C9: the upsert is committed before rendering starts, so when
rendering fails the endpoint answers HTTP 500 while the inserted or
updated row (with the request's configuration and totals) remains in the
database. -/
theorem c9_commit_before_render (db : List WebRow) (config : Json) (row : WebRow)
    (h : processRequest (.valid config false) = .ok (row, false)) :
    generate_invoice_api db (.valid config false) = (upsertRow db row, .serverError) ∧
    row ∈ upsertRow db row ∧
    row.config_json = config := by
  obtain ⟨-, hcfg, -⟩ := processRequest_ok_spec config false false row h
  refine ⟨?_, upsertRow_self_mem db row, hcfg⟩
  unfold generate_invoice_api
  rw [h]
  rfl

/-! ## witnesses for the web and validation claims -/

theorem calculate_totals_example :
    calculate_totals (.cons (mkItem 100) .nil) 23 true = some ⟨100, 23, 123⟩ := by
  have e1 : pyRound2 ((100 : ℚ)) = 100 := pyRound2_eq_of _ _ 10000 (by norm_num) (by norm_num)
  have e2 : pyRound2 ((23 : ℚ)) = 23 := pyRound2_eq_of _ _ 2300 (by norm_num) (by norm_num)
  have e3 : pyRound2 ((123 : ℚ)) = 123 := pyRound2_eq_of _ _ 12300 (by norm_num) (by norm_num)
  norm_num [calculate_totals, sumAmounts, getAmount, mkItem, lookupField, e1, e2, e3]

theorem webTotals_example : webTotals exampleConfig = some ⟨100, 23, 123⟩ := by
  have h0 : webTotals exampleConfig =
      calculate_totals (.cons (mkItem 100) .nil) 23 true := rfl
  rw [h0, calculate_totals_example]

theorem processRequest_example (b : Bool) :
    processRequest (.valid exampleConfig b) = .ok (exampleRow, b) := by
  have h0 : processRequest (.valid exampleConfig b) =
      (match webTotals exampleConfig with
       | none => .error .serverError
       | some t =>
           .ok (⟨"INV-001", exampleConfig, some (.str "Acme"), none,
                 t.net_amount, t.vat_amount, t.total⟩, b)) := rfl
  rw [h0, webTotals_example]
  rfl

/-- C6 witness: the minimal example configuration is well shaped and
validates successfully. -/
theorem c6_validate_config_witness :
    wellShapedConfig exampleConfig = true ∧
    (((∃ e, validate_config exampleConfig = .error e) ↔
      (jGet exampleConfig "sender" = none ∨ jGet exampleConfig "invoice" = none ∨
        jGet exampleConfig "bill_to" = none ∨
        jGet exampleConfig "line_items" = none ∨
        jGetIn exampleConfig "invoice" "invoice_number" = none ∨
        jGetIn exampleConfig "invoice" "invoice_number" = some (.str "") ∨
        jGet exampleConfig "line_items" = some (.arr .nil) ∨
        (datesMode exampleConfig ≠ Json.str "explicit" ∧
          datesMode exampleConfig ≠ Json.str "calculated") ∨
        (datesMode exampleConfig = Json.str "calculated" ∧
          ∃ r, ruleValue exampleConfig = some (.str r) ∧ r ≠ "" ∧ r ∉ validRules))) ∧
    (¬ (jGet exampleConfig "sender" = none ∨ jGet exampleConfig "invoice" = none ∨
        jGet exampleConfig "bill_to" = none ∨
        jGet exampleConfig "line_items" = none ∨
        jGetIn exampleConfig "invoice" "invoice_number" = none ∨
        jGetIn exampleConfig "invoice" "invoice_number" = some (.str "") ∨
        jGet exampleConfig "line_items" = some (.arr .nil) ∨
        (datesMode exampleConfig ≠ Json.str "explicit" ∧
          datesMode exampleConfig ≠ Json.str "calculated") ∨
        (datesMode exampleConfig = Json.str "calculated" ∧
          ∃ r, ruleValue exampleConfig = some (.str r) ∧ r ≠ "" ∧ r ∉ validRules)) →
      validate_config exampleConfig = .ok true)) :=
  ⟨by decide, c6_validate_config exampleConfig (by decide)⟩

/-- C7 witness: one successful request against the empty table leaves
exactly the one row built from it. -/
theorem c7_upsert_by_invoice_number_witness :
    processRequest (.valid exampleConfig true) = .ok (exampleRow, true) ∧
    (countKey (runRequests ([] ++ [.valid exampleConfig true])) exampleRow.invoice_number = 1 ∧
     (runRequests ([] ++ [.valid exampleConfig true])).filter
       (fun x => x.invoice_number == exampleRow.invoice_number) = [exampleRow] ∧
     exampleRow.config_json = exampleConfig ∧
     (∃ t, webTotals exampleConfig = some t ∧ exampleRow.subtotal = t.net_amount ∧
       exampleRow.tax_amount = t.vat_amount ∧ exampleRow.total = t.total)) :=
  ⟨processRequest_example true,
   c7_upsert_by_invoice_number.2 [] exampleConfig true true exampleRow
     (processRequest_example true)⟩

/-- C9 witness: a render-failing request against the empty table answers
500 and still persists its row. -/
theorem c9_commit_before_render_witness :
    processRequest (.valid exampleConfig false) = .ok (exampleRow, false) ∧
    (generate_invoice_api [] (.valid exampleConfig false) =
        (upsertRow [] exampleRow, .serverError) ∧
      exampleRow ∈ upsertRow [] exampleRow ∧
      exampleRow.config_json = exampleConfig) :=
  ⟨processRequest_example false,
   c9_commit_before_render [] exampleConfig exampleRow (processRequest_example false)⟩

/-! ## C5 lemmas -/

theorem daysInMonth_bounds (y m : Nat) :
    28 ≤ daysInMonth y m ∧ daysInMonth y m ≤ 31 := by
  unfold daysInMonth
  split_ifs <;> omega

theorem last_working_day_spec (y m : Nat) (hol : String → Date → Bool) :
    ∃ d : Date,
      lwdScan y m none hol (daysInMonth y m) = some d ∧ d.year = y ∧ d.month = m ∧
      1 ≤ d.day ∧ d.day ≤ daysInMonth y m ∧ is_working_day d none hol = true ∧
      ∀ k, d.day < k → k ≤ daysInMonth y m →
        is_working_day ⟨y, m, k⟩ none hol = false := by
  have hL : 28 ≤ daysInMonth y m ∧ daysInMonth y m ≤ 31 := daysInMonth_bounds y m
  have hw : ∀ k : Nat, is_working_day ⟨y, m, k⟩ none hol =
      decide ((daysBeforeYear y + daysBeforeMonth y m + k + 6) % 7 < 5) := by
    intro k
    simp [is_working_day, weekday, toOrdinal]
  obtain ⟨l, hl⟩ : ∃ l, daysInMonth y m = l + 3 := ⟨daysInMonth y m - 3, by omega⟩
  rw [hl]
  simp only [lwdScan]
  by_cases hc3 : (daysBeforeYear y + daysBeforeMonth y m + (l + 3) + 6) % 7 < 5
  · refine ⟨⟨y, m, l + 3⟩, ?_, rfl, rfl, by dsimp only; omega, by dsimp only; omega, ?_, ?_⟩
    · rw [hw (l + 3)]
      simp [hc3]
    · rw [hw (l + 3)]
      simpa using hc3
    · intro k hk1 hk2
      dsimp only at hk1
      exact absurd hk2 (by omega)
  · by_cases hc2 : (daysBeforeYear y + daysBeforeMonth y m + (l + 2) + 6) % 7 < 5
    · refine ⟨⟨y, m, l + 2⟩, ?_, rfl, rfl, by dsimp only; omega, by dsimp only; omega, ?_, ?_⟩
      · rw [hw (l + 3), hw (l + 2)]
        simp [hc3, hc2]
      · rw [hw (l + 2)]
        simpa using hc2
      · intro k hk1 hk2
        dsimp only at hk1
        have hk : k = l + 3 := by omega
        subst hk
        rw [hw (l + 3)]
        simpa using hc3
    · have hc1 : (daysBeforeYear y + daysBeforeMonth y m + (l + 1) + 6) % 7 < 5 := by
        omega
      refine ⟨⟨y, m, l + 1⟩, ?_, rfl, rfl, by dsimp only; omega, by dsimp only; omega, ?_, ?_⟩
      · rw [hw (l + 3), hw (l + 2), hw (l + 1)]
        simp [hc3, hc2, hc1]
      · rw [hw (l + 1)]
        simpa using hc1
      · intro k hk1 hk2
        dsimp only at hk1
        have hk : k = l + 2 ∨ k = l + 3 := by omega
        rcases hk with hk | hk <;> subst hk
        · rw [hw (l + 2)]
          simpa using hc2
        · rw [hw (l + 3)]
          simpa using hc3

theorem get_last_working_day_spec (year month : ℤ) (hol : String → Date → Bool)
    (h1 : 1 ≤ month) (h2 : month ≤ 12) (h3 : 1 ≤ year) (h4 : year ≤ 9999) :
    ∃ d : Date,
      get_last_working_day_of_month year month none hol = some d ∧
      d.year = year.toNat ∧ d.month = month.toNat ∧
      1 ≤ d.day ∧ d.day ≤ daysInMonth year.toNat month.toNat ∧
      is_working_day d none hol = true ∧
      ∀ k, d.day < k → k ≤ daysInMonth year.toNat month.toNat →
        is_working_day ⟨year.toNat, month.toNat, k⟩ none hol = false := by
  obtain ⟨d, hscan, hdy, hdm, hd1, hd2, hdw, hlater⟩ :=
    last_working_day_spec year.toNat month.toNat hol
  refine ⟨d, ?_, hdy, hdm, hd1, hd2, hdw, hlater⟩
  unfold get_last_working_day_of_month
  rw [if_pos ⟨h1, h2, h3, h4⟩]
  dsimp only
  rw [hscan]

/-! ## C5 -/

/-- C5 (amended): under rule `last_working_day_current_month` or
`last_working_day_next_month` in calculated mode, with a non-negative
`month_offset` such that reference month + offset stays at most 24 (a
larger offset overflows the single 12-subtraction of the source and makes
`calendar.monthrange` raise), `calculate_due_date` targets month
(reference month + offset), wrapping past 12 into the following year, and
returns the last working day of that month. -/
theorem c5_calculate_due_date (rule : String) (month_offset : ℤ)
    (due_date : Option String) (reference_date : Date) (hol : String → Date → Bool)
    (hrule : rule = "last_working_day_current_month" ∨
      rule = "last_working_day_next_month")
    (hoff : 0 ≤ month_offset)
    (hsum : (reference_date.month : ℤ) + month_offset ≤ 24)
    (href : validDate reference_date) (hy : reference_date.year ≤ 9998) :
    ∃ d : Date,
      calculate_due_date ⟨some "calculated", due_date, some ⟨some rule, some month_offset⟩⟩
        none reference_date hol = some d ∧
      (12 < (reference_date.month : ℤ) + month_offset →
        (d.year : ℤ) = reference_date.year + 1 ∧
        (d.month : ℤ) = (reference_date.month : ℤ) + month_offset - 12) ∧
      ((reference_date.month : ℤ) + month_offset ≤ 12 →
        d.year = reference_date.year ∧
        (d.month : ℤ) = (reference_date.month : ℤ) + month_offset) ∧
      1 ≤ d.day ∧ d.day ≤ daysInMonth d.year d.month ∧
      is_working_day d none hol = true ∧
      ∀ k, d.day < k → k ≤ daysInMonth d.year d.month →
        is_working_day ⟨d.year, d.month, k⟩ none hol = false := by
  obtain ⟨hy1, -, hm1, hm2, -, -⟩ := href
  have hcd : calculate_due_date
      ⟨some "calculated", due_date, some ⟨some rule, some month_offset⟩⟩
      none reference_date hol =
      (if 12 < (reference_date.month : ℤ) + month_offset then
        get_last_working_day_of_month ((reference_date.year : ℤ) + 1)
          ((reference_date.month : ℤ) + month_offset - 12) none hol
      else
        get_last_working_day_of_month (reference_date.year : ℤ)
          ((reference_date.month : ℤ) + month_offset) none hol) := by
    rcases hrule with h | h <;> subst h <;>
      simp [calculate_due_date, pyTruthyStrOpt] <;>
      split_ifs <;> rfl
  by_cases hwrap : 12 < (reference_date.month : ℤ) + month_offset
  · obtain ⟨d, hval, hdy, hdm, hd1, hd2, hdw, hlater⟩ :=
      get_last_working_day_spec ((reference_date.year : ℤ) + 1)
        ((reference_date.month : ℤ) + month_offset - 12) hol
        (by omega) (by omega) (by omega) (by omega)
    refine ⟨d, ?_, fun _ => ⟨by omega, by omega⟩, fun hc => absurd hc (by omega),
      hd1, ?_, hdw, ?_⟩
    · rw [hcd, if_pos hwrap, hval]
    · rw [hdy, hdm]
      exact hd2
    · rw [hdy, hdm]
      exact hlater
  · obtain ⟨d, hval, hdy, hdm, hd1, hd2, hdw, hlater⟩ :=
      get_last_working_day_spec (reference_date.year : ℤ)
        ((reference_date.month : ℤ) + month_offset) hol
        (by omega) (by omega) (by omega) (by omega)
    refine ⟨d, ?_, fun hc => absurd hc hwrap, fun _ => ⟨by omega, by omega⟩,
      hd1, ?_, hdw, ?_⟩
    · rw [hcd, if_neg hwrap, hval]
    · rw [hdy, hdm]
      exact hd2
    · rw [hdy, hdm]
      exact hlater

/-- C5 counterexample: `month_offset = 13` from a December reference date
: the source subtracts 12 only once, so the target month stays 13 and
`calendar.monthrange(year, 13)` raises instead of returning a date. -/
theorem c5_counterexample :
    calculate_due_date
      ⟨some "calculated", none,
       some ⟨some "last_working_day_current_month", some 13⟩⟩
      none ⟨2025, 12, 15⟩ (fun _ _ => false) = none := by
  decide

/-- C5 witness: December 15, 2025 with offset 1 rolls into January 2026. -/
theorem c5_calculate_due_date_witness :
    ("last_working_day_current_month" = "last_working_day_current_month" ∨
      "last_working_day_current_month" = "last_working_day_next_month") ∧
    (0 : ℤ) ≤ 1 ∧ ((⟨2025, 12, 15⟩ : Date).month : ℤ) + 1 ≤ 24 ∧
    validDate ⟨2025, 12, 15⟩ ∧ (⟨2025, 12, 15⟩ : Date).year ≤ 9998 ∧
    (∃ d : Date,
      calculate_due_date
        ⟨some "calculated", none, some ⟨some "last_working_day_current_month", some 1⟩⟩
        none ⟨2025, 12, 15⟩ (fun _ _ => false) = some d ∧
      (12 < ((⟨2025, 12, 15⟩ : Date).month : ℤ) + 1 →
        (d.year : ℤ) = (⟨2025, 12, 15⟩ : Date).year + 1 ∧
        (d.month : ℤ) = ((⟨2025, 12, 15⟩ : Date).month : ℤ) + 1 - 12) ∧
      (((⟨2025, 12, 15⟩ : Date).month : ℤ) + 1 ≤ 12 →
        d.year = (⟨2025, 12, 15⟩ : Date).year ∧
        (d.month : ℤ) = ((⟨2025, 12, 15⟩ : Date).month : ℤ) + 1) ∧
      1 ≤ d.day ∧ d.day ≤ daysInMonth d.year d.month ∧
      is_working_day d (none : Option String) (fun _ _ => false) = true ∧
      ∀ k, d.day < k → k ≤ daysInMonth d.year d.month →
        is_working_day ⟨d.year, d.month, k⟩ (none : Option String) (fun _ _ => false) = false) :=
  ⟨Or.inl rfl, by norm_num, by norm_num, by decide, by norm_num,
   c5_calculate_due_date "last_working_day_current_month" 1 none ⟨2025, 12, 15⟩
     (fun _ _ => false) (Or.inl rfl) (by norm_num) (by norm_num) (by decide) (by norm_num)⟩

/-! ## C3 lemmas: digits and primitive parsers -/

theorem toList_mk (l : List Char) : (String.mk l).toList = l := rfl

theorem digitChar_isDigit (n : Nat) (h : n < 10) : (digitChar n).isDigit = true := by
  interval_cases n <;> decide

theorem charVal_digitChar (n : Nat) (h : n < 10) : charVal (digitChar n) = n := by
  interval_cases n <;> decide

theorem parse2_pad2 (n : Nat) (h : n < 100) (rest : List Char) :
    parse2 (pad2 n ++ rest) = some (n, rest) := by
  have h1 : n / 10 < 10 := by omega
  have h2 : n % 10 < 10 := by omega
  simp [pad2, parse2, digitChar_isDigit _ h1, digitChar_isDigit _ h2,
    charVal_digitChar _ h1, charVal_digitChar _ h2]
  omega

theorem parse4_year4 (y : Nat) (h : y ≤ 9999) (rest : List Char) :
    parse4 (year4 y ++ rest) = some (y, rest) := by
  have h1 : y / 1000 < 10 := by omega
  have h2 : y / 100 % 10 < 10 := by omega
  have h3 : y / 10 % 10 < 10 := by omega
  have h4 : y % 10 < 10 := by omega
  simp [year4, parse4, digitChar_isDigit _ h1, digitChar_isDigit _ h2,
    digitChar_isDigit _ h3, digitChar_isDigit _ h4,
    charVal_digitChar _ h1, charVal_digitChar _ h2, charVal_digitChar _ h3,
    charVal_digitChar _ h4]
  omega

theorem pExpect_cons (c : Char) (rest : List Char) : pExpect c (c :: rest) = some rest := by
  simp [pExpect]

theorem pExpect_ne (c x : Char) (h : x ≠ c) (rest : List Char) :
    pExpect c (x :: rest) = none := by
  simp [pExpect, h]

theorem parse4_third_not_digit (a b c : Char) (h : ¬ c.isDigit = true) (l : List Char) :
    parse4 (a :: b :: c :: l) = none := by
  cases l <;> simp [parse4, h]

theorem parse4_head_not_digit (c : Char) (h : ¬ c.isDigit = true) (l : List Char) :
    parse4 (c :: l) = none := by
  rcases l with _ | ⟨b, _ | ⟨c2, _ | ⟨d2, r⟩⟩⟩ <;> simp [parse4, h]

theorem parseMonthAbbrev_digit (k : Nat) (hk : k < 10) (l : List Char) :
    parseMonthAbbrev (digitChar k :: l) = none := by
  interval_cases k <;> rfl

theorem parseMonthFull_digit (k : Nat) (hk : k < 10) (l : List Char) :
    parseMonthFull (digitChar k :: l) = none := by
  interval_cases k <;> rfl

theorem parseMonthAbbrev_abbrev (m : Nat) (h1 : 1 ≤ m) (h2 : m ≤ 12) (rest : List Char) :
    parseMonthAbbrev (monthAbbrev m ++ rest) = some (m, rest) := by
  interval_cases m <;> rfl

theorem parseMonthFull_full (m : Nat) (h1 : 1 ≤ m) (h2 : m ≤ 12) (rest : List Char) :
    parseMonthFull (monthFull m ++ rest) = some (m, rest) := by
  interval_cases m <;> rfl

/-! ## C3 lemmas: the six format parsers on canonical strings -/

theorem tryMonDY_none (l : List Char) (h : parseMonthAbbrev l = none) :
    tryMonDY l = none := by
  simp [tryMonDY, h]

theorem tryMonthDY_none (l : List Char) (h : parseMonthFull l = none) :
    tryMonthDY l = none := by
  simp [tryMonthDY, h]

theorem tryISO_none (l : List Char) (h : parse4 l = none) : tryISO l = none := by
  simp [tryISO, h]

theorem tryTwoNum_none (sep : Char) (maxA maxB : Nat)
    (f : Nat → Nat → Nat → Option Date) (l : List Char) (h : parse2 l = none) :
    tryTwoNum sep maxA maxB f l = none := by
  simp [tryTwoNum, h]

theorem tryTwoNum_sep_mismatch (sep x : Char) (hx : x ≠ sep) (maxA maxB : Nat)
    (f : Nat → Nat → Nat → Option Date) (a : Nat) (ha : a < 100) (rest : List Char) :
    tryTwoNum sep maxA maxB f (pad2 a ++ x :: rest) = none := by
  simp only [tryTwoNum, parse2_pad2 a ha]
  split_ifs with h
  · simp [pExpect_ne sep x hx]
  · rfl

theorem tryMonDY_canonical (y m dd : Nat) (h1 : 1 ≤ m) (h2 : m ≤ 12) (h3 : 1 ≤ dd)
    (h4 : dd ≤ daysInMonth y m) (h5 : 1 ≤ y) (h6 : y ≤ 9999) :
    tryMonDY (monthAbbrev m ++ ' ' :: pad2 dd ++ ',' :: ' ' :: year4 y) =
      some ⟨y, m, dd⟩ := by
  have hdd31 : dd ≤ 31 := le_trans h4 (daysInMonth_bounds y m).2
  have h4' := parse4_year4 y h6 []
  rw [List.append_nil] at h4'
  simp only [List.append_assoc, List.cons_append]
  simp only [tryMonDY, parseMonthAbbrev_abbrev m h1 h2, pExpect_cons,
    parse2_pad2 dd (by omega)]
  rw [if_pos ⟨h3, hdd31⟩]
  simp only [pExpect_cons, h4']
  simp [mkDate, h1, h2, h3, h4, h5, h6]

theorem tryMonthDY_canonical (y m dd : Nat) (h1 : 1 ≤ m) (h2 : m ≤ 12) (h3 : 1 ≤ dd)
    (h4 : dd ≤ daysInMonth y m) (h5 : 1 ≤ y) (h6 : y ≤ 9999) :
    tryMonthDY (monthFull m ++ ' ' :: pad2 dd ++ ',' :: ' ' :: year4 y) =
      some ⟨y, m, dd⟩ := by
  have hdd31 : dd ≤ 31 := le_trans h4 (daysInMonth_bounds y m).2
  have h4' := parse4_year4 y h6 []
  rw [List.append_nil] at h4'
  simp only [List.append_assoc, List.cons_append]
  simp only [tryMonthDY, parseMonthFull_full m h1 h2, pExpect_cons,
    parse2_pad2 dd (by omega)]
  rw [if_pos ⟨h3, hdd31⟩]
  simp only [pExpect_cons, h4']
  simp [mkDate, h1, h2, h3, h4, h5, h6]

theorem tryMonDY_full_ne5 (m : Nat) (h1 : 1 ≤ m) (h2 : m ≤ 12) (h5 : m ≠ 5)
    (rest : List Char) : tryMonDY (monthFull m ++ ' ' :: rest) = none := by
  interval_cases m <;> first | (exact absurd rfl h5) | rfl

theorem tryISO_canonical (y m dd : Nat) (h1 : 1 ≤ m) (h2 : m ≤ 12) (h3 : 1 ≤ dd)
    (h4 : dd ≤ daysInMonth y m) (h5 : 1 ≤ y) (h6 : y ≤ 9999) :
    tryISO (year4 y ++ '-' :: pad2 m ++ '-' :: pad2 dd) = some ⟨y, m, dd⟩ := by
  have hdd31 : dd ≤ 31 := le_trans h4 (daysInMonth_bounds y m).2
  have hp2 := parse2_pad2 dd (by omega : dd < 100) []
  rw [List.append_nil] at hp2
  simp only [List.append_assoc, List.cons_append]
  simp only [tryISO, parse4_year4 y h6, pExpect_cons, parse2_pad2 m (by omega)]
  rw [if_pos ⟨h1, h2⟩]
  simp only [pExpect_cons, hp2]
  simp [mkDate, h1, h2, h3, h4, h5, h6, hdd31]

theorem tryDMYslash_canonical (y m dd : Nat) (h1 : 1 ≤ m) (h2 : m ≤ 12) (h3 : 1 ≤ dd)
    (h4 : dd ≤ daysInMonth y m) (h5 : 1 ≤ y) (h6 : y ≤ 9999) :
    tryDMYslash (pad2 dd ++ '/' :: pad2 m ++ '/' :: year4 y) = some ⟨y, m, dd⟩ := by
  have hdd31 : dd ≤ 31 := le_trans h4 (daysInMonth_bounds y m).2
  have h4' := parse4_year4 y h6 []
  rw [List.append_nil] at h4'
  simp only [List.append_assoc, List.cons_append]
  simp only [tryDMYslash, tryTwoNum, parse2_pad2 dd (by omega)]
  rw [if_pos ⟨h3, hdd31⟩]
  simp only [pExpect_cons, parse2_pad2 m (by omega)]
  rw [if_pos ⟨h1, h2⟩]
  simp only [pExpect_cons, h4']
  simp [mkDate, h1, h2, h3, h4, h5, h6]

theorem tryDMYdash_canonical (y m dd : Nat) (h1 : 1 ≤ m) (h2 : m ≤ 12) (h3 : 1 ≤ dd)
    (h4 : dd ≤ daysInMonth y m) (h5 : 1 ≤ y) (h6 : y ≤ 9999) :
    tryDMYdash (pad2 dd ++ '-' :: pad2 m ++ '-' :: year4 y) = some ⟨y, m, dd⟩ := by
  have hdd31 : dd ≤ 31 := le_trans h4 (daysInMonth_bounds y m).2
  have h4' := parse4_year4 y h6 []
  rw [List.append_nil] at h4'
  simp only [List.append_assoc, List.cons_append]
  simp only [tryDMYdash, tryTwoNum, parse2_pad2 dd (by omega)]
  rw [if_pos ⟨h3, hdd31⟩]
  simp only [pExpect_cons, parse2_pad2 m (by omega)]
  rw [if_pos ⟨h1, h2⟩]
  simp only [pExpect_cons, h4']
  simp [mkDate, h1, h2, h3, h4, h5, h6]

theorem tryDMYslash_mdy (y m dd : Nat) (h1 : 1 ≤ m) (h2 : m ≤ 12) (h3 : 1 ≤ dd)
    (h4 : dd ≤ daysInMonth y m) (h5 : 1 ≤ y) (h6 : y ≤ 9999) :
    tryDMYslash (pad2 m ++ '/' :: pad2 dd ++ '/' :: year4 y) =
      if dd ≤ 12 then some ⟨y, dd, m⟩ else none := by
  have hdd31 : dd ≤ 31 := le_trans h4 (daysInMonth_bounds y m).2
  have h4' := parse4_year4 y h6 []
  rw [List.append_nil] at h4'
  simp only [List.append_assoc, List.cons_append]
  simp only [tryDMYslash, tryTwoNum, parse2_pad2 m (by omega)]
  rw [if_pos ⟨h1, (by omega : m ≤ 31)⟩]
  simp only [pExpect_cons, parse2_pad2 dd (by omega)]
  by_cases hdd : dd ≤ 12
  · rw [if_pos ⟨h3, hdd⟩, if_pos hdd]
    simp only [pExpect_cons, h4']
    have hmd : m ≤ daysInMonth y dd := by
      have := (daysInMonth_bounds y dd).1
      omega
    simp [mkDate, h3, hdd, h1, hmd, h5, h6]
  · rw [if_neg (by omega), if_neg hdd]

theorem tryMDYslash_canonical (y m dd : Nat) (h1 : 1 ≤ m) (h2 : m ≤ 12) (h3 : 1 ≤ dd)
    (h4 : dd ≤ daysInMonth y m) (h5 : 1 ≤ y) (h6 : y ≤ 9999) :
    tryMDYslash (pad2 m ++ '/' :: pad2 dd ++ '/' :: year4 y) = some ⟨y, m, dd⟩ := by
  have hdd31 : dd ≤ 31 := le_trans h4 (daysInMonth_bounds y m).2
  have h4' := parse4_year4 y h6 []
  rw [List.append_nil] at h4'
  simp only [List.append_assoc, List.cons_append]
  simp only [tryMDYslash, tryTwoNum, parse2_pad2 m (by omega)]
  rw [if_pos ⟨h1, h2⟩]
  simp only [pExpect_cons, parse2_pad2 dd (by omega)]
  rw [if_pos ⟨h3, hdd31⟩]
  simp only [pExpect_cons, h4']
  simp [mkDate, h1, h2, h3, h4, h5, h6]

/-! ## C3 lemmas: failures of earlier formats on digit-headed strings -/

theorem parseMonthAbbrev_year4_head (y : Nat) (h : y ≤ 9999) (rest : List Char) :
    parseMonthAbbrev (year4 y ++ rest) = none := by
  simp only [year4, List.cons_append]
  exact parseMonthAbbrev_digit _ (by omega) _

theorem parseMonthFull_year4_head (y : Nat) (h : y ≤ 9999) (rest : List Char) :
    parseMonthFull (year4 y ++ rest) = none := by
  simp only [year4, List.cons_append]
  exact parseMonthFull_digit _ (by omega) _

theorem parseMonthAbbrev_pad2_head (a : Nat) (h : a < 100) (rest : List Char) :
    parseMonthAbbrev (pad2 a ++ rest) = none := by
  simp only [pad2, List.cons_append]
  exact parseMonthAbbrev_digit _ (by omega) _

theorem parseMonthFull_pad2_head (a : Nat) (h : a < 100) (rest : List Char) :
    parseMonthFull (pad2 a ++ rest) = none := by
  simp only [pad2, List.cons_append]
  exact parseMonthFull_digit _ (by omega) _

theorem parse4_pad2_sep (a : Nat) (x : Char) (hx : ¬ x.isDigit = true)
    (rest : List Char) : parse4 (pad2 a ++ x :: rest) = none := by
  simp only [pad2, List.cons_append]
  exact parse4_third_not_digit _ _ x hx rest

/-! ## C3 -/

/-- C3 (amended): formatting a valid date (with a four-digit year) and
re-parsing is the identity for five of the six accepted formats; for
`"%m/%d/%Y"` the re-parse is captured first by the `"%d/%m/%Y"` pattern
whenever the day is at most 12, returning the date with day and month
swapped (the identity holds there only when day = month or day > 12). -/
theorem c3_parse_format_roundtrip (d : Date) (hv : validDate d)
    (hy1000 : 1000 ≤ d.year) :
    parse_date_string (format_date_string d .fmtMonDY) = some d ∧
    parse_date_string (format_date_string d .fmtMonthDY) = some d ∧
    parse_date_string (format_date_string d .fmtISO) = some d ∧
    parse_date_string (format_date_string d .fmtDMYslash) = some d ∧
    parse_date_string (format_date_string d .fmtDMYdash) = some d ∧
    parse_date_string (format_date_string d .fmtMDYslash) =
      some (if d.day ≤ 12 then ⟨d.year, d.day, d.month⟩ else d) := by
  obtain ⟨y, m, dd⟩ := d
  obtain ⟨h5, h6, h1, h2, h3, h4⟩ := hv
  simp only at h5 h6 h1 h2 h3 h4 hy1000
  have hdd31 : dd ≤ 31 := le_trans h4 (daysInMonth_bounds y m).2
  refine ⟨?_, ?_, ?_, ?_, ?_, ?_⟩
  · -- "%b %d, %Y"
    show parse_date_string
      (String.mk (monthAbbrev m ++ ' ' :: pad2 dd ++ ',' :: ' ' :: year4 y)) = _
    simp only [parse_date_string, toList_mk,
      tryMonDY_canonical y m dd h1 h2 h3 h4 h5 h6]
  · -- "%B %d, %Y"
    show parse_date_string
      (String.mk (monthFull m ++ ' ' :: pad2 dd ++ ',' :: ' ' :: year4 y)) = _
    by_cases hm5 : m = 5
    · subst hm5
      rw [show (monthFull 5 : List Char) = monthAbbrev 5 from rfl]
      simp only [parse_date_string, toList_mk,
        tryMonDY_canonical y 5 dd h1 h2 h3 h4 h5 h6]
    · have heq : (monthFull m ++ ' ' :: pad2 dd ++ ',' :: ' ' :: year4 y) =
          monthFull m ++ ' ' :: (pad2 dd ++ ',' :: ' ' :: year4 y) := by
        simp [List.append_assoc]
      have f1 : tryMonDY (monthFull m ++ ' ' :: pad2 dd ++ ',' :: ' ' :: year4 y) =
          none := by
        rw [heq]
        exact tryMonDY_full_ne5 m h1 h2 hm5 _
      simp only [parse_date_string, toList_mk, f1,
        tryMonthDY_canonical y m dd h1 h2 h3 h4 h5 h6]
  · -- "%Y-%m-%d"
    show parse_date_string
      (String.mk (year4 y ++ '-' :: pad2 m ++ '-' :: pad2 dd)) = _
    have heq : (year4 y ++ '-' :: pad2 m ++ '-' :: pad2 dd) =
        year4 y ++ ('-' :: (pad2 m ++ '-' :: pad2 dd)) := by
      simp [List.append_assoc]
    have f1 : tryMonDY (year4 y ++ '-' :: pad2 m ++ '-' :: pad2 dd) = none := by
      apply tryMonDY_none
      rw [heq]
      exact parseMonthAbbrev_year4_head y h6 _
    have f2 : tryMonthDY (year4 y ++ '-' :: pad2 m ++ '-' :: pad2 dd) = none := by
      apply tryMonthDY_none
      rw [heq]
      exact parseMonthFull_year4_head y h6 _
    simp only [parse_date_string, toList_mk, f1, f2,
      tryISO_canonical y m dd h1 h2 h3 h4 h5 h6]
  · -- "%d/%m/%Y"
    show parse_date_string
      (String.mk (pad2 dd ++ '/' :: pad2 m ++ '/' :: year4 y)) = _
    have heq : (pad2 dd ++ '/' :: pad2 m ++ '/' :: year4 y) =
        pad2 dd ++ ('/' :: (pad2 m ++ '/' :: year4 y)) := by
      simp [List.append_assoc]
    have f1 : tryMonDY (pad2 dd ++ '/' :: pad2 m ++ '/' :: year4 y) = none := by
      apply tryMonDY_none
      rw [heq]
      exact parseMonthAbbrev_pad2_head dd (by omega) _
    have f2 : tryMonthDY (pad2 dd ++ '/' :: pad2 m ++ '/' :: year4 y) = none := by
      apply tryMonthDY_none
      rw [heq]
      exact parseMonthFull_pad2_head dd (by omega) _
    have f3 : tryISO (pad2 dd ++ '/' :: pad2 m ++ '/' :: year4 y) = none := by
      apply tryISO_none
      rw [heq]
      exact parse4_pad2_sep dd '/' (by decide) _
    simp only [parse_date_string, toList_mk, f1, f2, f3,
      tryDMYslash_canonical y m dd h1 h2 h3 h4 h5 h6]
  · -- "%d-%m-%Y"
    show parse_date_string
      (String.mk (pad2 dd ++ '-' :: pad2 m ++ '-' :: year4 y)) = _
    have heq : (pad2 dd ++ '-' :: pad2 m ++ '-' :: year4 y) =
        pad2 dd ++ ('-' :: (pad2 m ++ '-' :: year4 y)) := by
      simp [List.append_assoc]
    have f1 : tryMonDY (pad2 dd ++ '-' :: pad2 m ++ '-' :: year4 y) = none := by
      apply tryMonDY_none
      rw [heq]
      exact parseMonthAbbrev_pad2_head dd (by omega) _
    have f2 : tryMonthDY (pad2 dd ++ '-' :: pad2 m ++ '-' :: year4 y) = none := by
      apply tryMonthDY_none
      rw [heq]
      exact parseMonthFull_pad2_head dd (by omega) _
    have f3 : tryISO (pad2 dd ++ '-' :: pad2 m ++ '-' :: year4 y) = none := by
      apply tryISO_none
      rw [heq]
      exact parse4_pad2_sep dd '-' (by decide) _
    have f4 : tryDMYslash (pad2 dd ++ '-' :: pad2 m ++ '-' :: year4 y) = none := by
      rw [heq]
      unfold tryDMYslash
      exact tryTwoNum_sep_mismatch '/' '-' (by decide) 31 12 _ dd (by omega) _
    have f5 : tryMDYslash (pad2 dd ++ '-' :: pad2 m ++ '-' :: year4 y) = none := by
      rw [heq]
      unfold tryMDYslash
      exact tryTwoNum_sep_mismatch '/' '-' (by decide) 12 31 _ dd (by omega) _
    simp only [parse_date_string, toList_mk, f1, f2, f3, f4, f5,
      tryDMYdash_canonical y m dd h1 h2 h3 h4 h5 h6]
  · -- "%m/%d/%Y"
    show parse_date_string
      (String.mk (pad2 m ++ '/' :: pad2 dd ++ '/' :: year4 y)) = _
    have heq : (pad2 m ++ '/' :: pad2 dd ++ '/' :: year4 y) =
        pad2 m ++ ('/' :: (pad2 dd ++ '/' :: year4 y)) := by
      simp [List.append_assoc]
    have f1 : tryMonDY (pad2 m ++ '/' :: pad2 dd ++ '/' :: year4 y) = none := by
      apply tryMonDY_none
      rw [heq]
      exact parseMonthAbbrev_pad2_head m (by omega) _
    have f2 : tryMonthDY (pad2 m ++ '/' :: pad2 dd ++ '/' :: year4 y) = none := by
      apply tryMonthDY_none
      rw [heq]
      exact parseMonthFull_pad2_head m (by omega) _
    have f3 : tryISO (pad2 m ++ '/' :: pad2 dd ++ '/' :: year4 y) = none := by
      apply tryISO_none
      rw [heq]
      exact parse4_pad2_sep m '/' (by decide) _
    have f4 := tryDMYslash_mdy y m dd h1 h2 h3 h4 h5 h6
    by_cases hdd : dd ≤ 12
    · rw [if_pos hdd] at f4
      simp only [parse_date_string, toList_mk, f1, f2, f3, f4]
      rw [if_pos hdd]
    · rw [if_neg hdd] at f4
      simp only [parse_date_string, toList_mk, f1, f2, f3, f4,
        tryMDYslash_canonical y m dd h1 h2 h3 h4 h5 h6]
      rw [if_neg hdd]

/-- C3 counterexample: October 6, 2025 formatted with `"%m/%d/%Y"` gives
`"10/06/2025"`, which `parse_date_string` reads back as June 10, 2025 —
the `"%d/%m/%Y"` pattern is tried first and matches. -/
theorem c3_counterexample :
    format_date_string ⟨2025, 10, 6⟩ .fmtMDYslash = "10/06/2025" ∧
    parse_date_string "10/06/2025" = some ⟨2025, 6, 10⟩ ∧
    (⟨2025, 6, 10⟩ : Date) ≠ ⟨2025, 10, 6⟩ := by
  refine ⟨by decide, by decide, by decide⟩

/-- C3 witness: October 6, 2025 round-trips through the first five formats
and comes back day/month-swapped through `"%m/%d/%Y"`. -/
theorem c3_parse_format_roundtrip_witness :
    validDate ⟨2025, 10, 6⟩ ∧ 1000 ≤ (⟨2025, 10, 6⟩ : Date).year ∧
    (parse_date_string (format_date_string ⟨2025, 10, 6⟩ .fmtMonDY) =
       some ⟨2025, 10, 6⟩ ∧
     parse_date_string (format_date_string ⟨2025, 10, 6⟩ .fmtMonthDY) =
       some ⟨2025, 10, 6⟩ ∧
     parse_date_string (format_date_string ⟨2025, 10, 6⟩ .fmtISO) =
       some ⟨2025, 10, 6⟩ ∧
     parse_date_string (format_date_string ⟨2025, 10, 6⟩ .fmtDMYslash) =
       some ⟨2025, 10, 6⟩ ∧
     parse_date_string (format_date_string ⟨2025, 10, 6⟩ .fmtDMYdash) =
       some ⟨2025, 10, 6⟩ ∧
     parse_date_string (format_date_string ⟨2025, 10, 6⟩ .fmtMDYslash) =
       some (if (⟨2025, 10, 6⟩ : Date).day ≤ 12
             then ⟨(⟨2025, 10, 6⟩ : Date).year, (⟨2025, 10, 6⟩ : Date).day,
                   (⟨2025, 10, 6⟩ : Date).month⟩
             else ⟨2025, 10, 6⟩)) :=
  ⟨by decide, by decide,
   c3_parse_format_roundtrip ⟨2025, 10, 6⟩ (by decide) (by decide)⟩
